import Mathlib

/-! # Calculator and image gallery

A shallow embedding of the two browser scripts of the repository:

* `Calculator/script.js`: the class `Calculator`, a four-function calculator whose state is
  a handful of string fields written back to two DOM elements;
* `Image Gallery/script.js`: category filtering of gallery items and a lightbox with
  previous/next navigation.

JavaScript strings are Lean strings (all text handled here is ASCII, so the number of UTF-16
code units is the number of characters).  `null` is `none`.  The ECMAScript Number primitives
used by the calculator form the interface `JS.NumberOps`; `JS.Float64.ops` implements it with
IEEE 754 binary64 arithmetic carried out on exact integers.  DOM elements are represented by
the properties the scripts read and write.
-/

namespace JS

/-- The ECMAScript Number primitives that `Calculator.calculate` relies on: `parseFloat`,
`isNaN`, the arithmetic operators, the test `x === 0`, `Math.round`, numeric literals and
`Number.prototype.toString`. -/
structure NumberOps (ν : Type) where
  parseFloat : String → ν
  isNaN : ν → Bool
  add : ν → ν → ν
  sub : ν → ν → ν
  mul : ν → ν → ν
  div : ν → ν → ν
  isZero : ν → Bool
  round : ν → ν
  ofNat : Nat → ν
  toString : ν → String

/-- The two facts about the primitives that the calculator depends on: the empty string does
not parse to a number, and no number prints as the empty string. -/
def NumberOps.Lawful {ν : Type} (J : NumberOps ν) : Prop :=
  J.isNaN (J.parseFloat "") = true ∧ ∀ x, J.toString x ≠ ""

/-- A further fact about `Number.prototype.toString`: the text has at most one decimal
point. -/
def NumberOps.PrintsOnePoint {ν : Type} (J : NumberOps ν) : Prop :=
  ∀ x, (J.toString x).data.count '.' ≤ 1

/-- IEEE 754 binary64 values: `fin neg m e` denotes `(-1)^neg * m * 2^e`. -/
inductive Float64 where
  | nan
  | inf (neg : Bool)
  | fin (neg : Bool) (m : Nat) (e : Int)
  deriving DecidableEq, Repr

namespace Float64

/-- Number of binary digits of `n` (0 for 0); `fuel` bounds the recursion. -/
def bitLength : Nat → Nat → Nat
  | 0, _ => 0
  | fuel + 1, n => if n = 0 then 0 else bitLength fuel (n / 2) + 1

/-- Round the positive rational `n / d` to the nearest binary64 value, ties to even. -/
def roundQuot (neg : Bool) (n d : Nat) : Float64 :=
  if n = 0 then fin neg 0 0 else
  let k0 : Int := (bitLength n n : Int) - (bitLength d d : Int)
  -- k = floor (log2 (n / d))
  let k : Int := if n * 2 ^ (-k0).toNat ≥ d * 2 ^ k0.toNat then k0 else k0 - 1
  let e : Int := max (k - 52) (-1074)
  let num := n * 2 ^ (-e).toNat
  let den := d * 2 ^ e.toNat
  let q := num / den
  let r := num % den
  let q := if 2 * r > den ∨ (2 * r = den ∧ q % 2 = 1) then q + 1 else q
  let (q, e) := if q = 2 ^ 53 then (2 ^ 52, e + 1) else (q, e)
  if e > 971 then inf neg
  else if q = 0 then fin neg 0 0
  else fin neg q e

def ofNat (n : Nat) : Float64 := roundQuot false n 1

def isNaN : Float64 → Bool
  | nan => true
  | _ => false

def isZero : Float64 → Bool
  | fin _ 0 _ => true
  | _ => false

def neg : Float64 → Float64
  | nan => nan
  | inf s => inf (!s)
  | fin s m e => fin (!s) m e

def add : Float64 → Float64 → Float64
  | nan, _ => nan
  | _, nan => nan
  | inf s, inf t => if s = t then inf s else nan
  | inf s, fin _ _ _ => inf s
  | fin _ _ _, inf t => inf t
  | fin s m e, fin t n f =>
    let g : Int := min e f
    let a : Int := (if s then -1 else 1) * (m * 2 ^ (e - g).toNat : Nat)
    let b : Int := (if t then -1 else 1) * (n * 2 ^ (f - g).toNat : Nat)
    let c : Int := a + b
    if c = 0 then fin (s && t) 0 0
    else roundQuot (decide (c < 0)) (c.natAbs * 2 ^ g.toNat) (2 ^ (-g).toNat)

def sub (x y : Float64) : Float64 := add x (neg y)

def mul : Float64 → Float64 → Float64
  | nan, _ => nan
  | _, nan => nan
  | inf s, inf t => inf (xor s t)
  | inf s, fin t n _ => if n = 0 then nan else inf (xor s t)
  | fin s m _, inf t => if m = 0 then nan else inf (xor s t)
  | fin s m e, fin t n f =>
    roundQuot (xor s t) (m * n * 2 ^ (e + f).toNat) (2 ^ (-(e + f)).toNat)

def div : Float64 → Float64 → Float64
  | nan, _ => nan
  | _, nan => nan
  | inf _, inf _ => nan
  | inf s, fin t _ _ => inf (xor s t)
  | fin s _ _, inf t => fin (xor s t) 0 0
  | fin s m e, fin t n f =>
    if n = 0 then (if m = 0 then nan else inf (xor s t))
    else roundQuot (xor s t) (m * 2 ^ (e - f).toNat) (n * 2 ^ (f - e).toNat)

/-- `Math.round`: the nearest integer, ties towards plus infinity. -/
def round : Float64 → Float64
  | nan => nan
  | inf s => inf s
  | fin s m e =>
    if e ≥ 0 then fin s m e else
    let k := (-e).toNat
    if s then
      if 2 * m ≤ 2 ^ k then fin true 0 0
      else roundQuot true ((2 * m - 2 ^ k + 2 ^ (k + 1) - 1) / 2 ^ (k + 1)) 1
    else roundQuot false ((2 * m + 2 ^ k) / 2 ^ (k + 1)) 1


/-- Decimal digit characters. -/
def isDigit (c : Char) : Bool := decide ('0' ≤ c ∧ c ≤ '9')

/-- The natural number written by a list of decimal digits. -/
def digitsValue (cs : List Char) : Nat :=
  cs.foldl (fun acc c => 10 * acc + (c.toNat - '0'.toNat)) 0

/-- White space and line terminators skipped by `parseFloat` (TrimString). -/
def isWhiteSpace (c : Char) : Bool :=
  c.toNat ∈ [0x09, 0x0A, 0x0B, 0x0C, 0x0D, 0x20, 0xA0, 0x1680, 0x2028, 0x2029, 0x202F, 0x205F,
    0x3000, 0xFEFF] || decide (0x2000 ≤ c.toNat ∧ c.toNat ≤ 0x200A)

/-- The ExponentPart of a decimal literal, if a well-formed one starts the list. -/
def parseExponent : List Char → Int
  | c :: cs =>
    if c = 'e' ∨ c = 'E' then
      match cs with
      | '-' :: ds => if (ds.span isDigit).1 = [] then 0 else -(digitsValue (ds.span isDigit).1 : Int)
      | '+' :: ds => (digitsValue (ds.span isDigit).1 : Int)
      | ds => (digitsValue (ds.span isDigit).1 : Int)
    else 0
  | [] => 0

/-- The longest StrUnsignedDecimalLiteral prefix of the list, as a binary64 value. -/
def parseUnsigned (neg : Bool) (cs : List Char) : Float64 :=
  if "Infinity".data.isPrefixOf cs then inf neg else
  let ip := (cs.span isDigit).1
  let rest := (cs.span isDigit).2
  let fp := match rest with
    | '.' :: ds => (ds.span isDigit).1
    | _ => []
  let rest2 := match rest with
    | '.' :: ds => (ds.span isDigit).2
    | r => r
  if ip = [] ∧ fp = [] then nan else
  let ex : Int := parseExponent rest2 - (fp.length : Int)
  roundQuot neg (digitsValue (ip ++ fp) * 10 ^ ex.toNat) (10 ^ (-ex).toNat)

/-- The global function `parseFloat` applied to a string. -/
def parseFloat (s : String) : Float64 :=
  match s.data.dropWhile isWhiteSpace with
  | '-' :: cs => parseUnsigned true cs
  | '+' :: cs => parseUnsigned false cs
  | cs => parseUnsigned false cs

/-- Least `j` (searched from `j`, at most `fuel` steps) with `n * 10 ^ j ≥ d`. -/
def leadingZeros : Nat → Nat → Nat → Nat → Nat
  | 0, _, _, j => j
  | fuel + 1, n, d, j => if n * 10 ^ j ≥ d then j else leadingZeros fuel n d (j + 1)

/-- The decimal exponent `n` with `10 ^ (n - 1) ≤ xn / xd < 10 ^ n`. -/
def decimalExponent (xn xd : Nat) : Int :=
  if xn ≥ xd then ((Nat.toDigits 10 (xn / xd)).length : Int)
  else 1 - (leadingZeros 400 xn xd 1 : Int)

/-- The shortest digit string `s` (with `k` digits, `k` counted up from the given one) and
exponent `n` such that `s * 10 ^ (n - k)` rounds to `m * 2 ^ e`; among two candidates the
closer one, the even one on a tie. -/
def shortest : Nat → Nat → Nat → Int → Nat × Int
  | 0, _, m, _ => (m, 0)
  | fuel + 1, k, m, e =>
    let xn := m * 2 ^ e.toNat
    let xd := 2 ^ (-e).toNat
    let n0 := decimalExponent xn xd
    let pn := 10 ^ (n0 - k).toNat
    let pd := 10 ^ ((k : Int) - n0).toNat
    let lo := (xn * pd) / (xd * pn)
    let okLo := decide (roundQuot false (lo * pn) pd = fin false m e)
    let okHi := decide (roundQuot false ((lo + 1) * pn) pd = fin false m e)
    let hi : Nat × Int := if lo + 1 = 10 ^ k then (10 ^ (k - 1), n0 + 1) else (lo + 1, n0)
    let remLo := xn * pd - lo * pn * xd
    let remHi := pn * xd - remLo
    if okLo ∧ okHi then
      if remLo < remHi ∨ (remLo = remHi ∧ lo % 2 = 0) then (lo, n0) else hi
    else if okLo then (lo, n0)
    else if okHi then hi
    else shortest fuel (k + 1) m e

/-- Number::toString for a positive finite value `m * 2 ^ e`. -/
def formatPositive (m : Nat) (e : Int) : List Char :=
  let s := (shortest 17 1 m e).1
  let n := (shortest 17 1 m e).2
  let digits := Nat.toDigits 10 s
  let k : Int := (digits.length : Int)
  if k ≤ n ∧ n ≤ 21 then digits ++ List.replicate (n - k).toNat '0'
  else if 0 < n ∧ n ≤ 21 then digits.take n.toNat ++ '.' :: digits.drop n.toNat
  else if -6 < n ∧ n ≤ 0 then '0' :: '.' :: (List.replicate (-n).toNat '0' ++ digits)
  else
    let ex := n - 1
    let sign := if ex < 0 then '-' else '+'
    if digits.length = 1 then digits ++ 'e' :: sign :: Nat.toDigits 10 ex.natAbs
    else digits.take 1 ++ '.' :: (digits.drop 1 ++ 'e' :: sign :: Nat.toDigits 10 ex.natAbs)

/-- Number.prototype.toString (radix 10). -/
def toString : Float64 → String
  | nan => "NaN"
  | inf s => if s then "-Infinity" else "Infinity"
  | fin s m e =>
    if m = 0 then "0"
    else if s then String.mk ('-' :: formatPositive m e)
    else String.mk (formatPositive m e)

/-- The binary64 implementation of the Number primitives. -/
def ops : NumberOps Float64 where
  parseFloat := parseFloat
  isNaN := isNaN
  add := add
  sub := sub
  mul := mul
  div := div
  isZero := isZero
  round := round
  ofNat := ofNat
  toString := toString

end Float64

end JS

/-! ## Calculator (`Calculator/script.js`) -/

/-- The state of a `Calculator` object together with the DOM state it writes: the text and
the `error` class of the display element, the text of the previous-operation element and the
number of `setTimeout` callbacks scheduled by `showError` that have not fired yet. -/
structure Calculator (ν : Type) where
  currentValue : String
  previousValue : String
  operator : Option String
  shouldResetDisplay : Bool
  lastResult : Option ν
  displayText : String
  displayError : Bool
  previousOperationText : String
  timers : Nat
  deriving DecidableEq, Repr

namespace Calculator

variable {ν : Type}

/-- Method `updateDisplay`: show `currentValue` and drop the `error` class. -/
def updateDisplay (s : Calculator ν) : Calculator ν :=
  { s with displayText := s.currentValue, displayError := false }

/-- The lookup `operatorSymbols[this.operator]` inside the template literal. -/
def operatorSymbol (op : String) : String :=
  if op = "+" then "+"
  else if op = "-" then "−"
  else if op = "*" then "×"
  else if op = "/" then "÷"
  else "undefined"

/-- Method `updatePreviousOperation`: both `previousValue` and `operator` must be truthy. -/
def updatePreviousOperation (s : Calculator ν) : Calculator ν :=
  match s.operator with
  | some op =>
    if s.previousValue ≠ "" ∧ op ≠ "" then
      { s with previousOperationText := s.previousValue ++ " " ++ operatorSymbol op }
    else { s with previousOperationText := "" }
  | none => { s with previousOperationText := "" }

/-- The constructor followed by `init`; `previousOperation` is the text the markup gives the
previous-operation element, which `init` does not touch. -/
def new (previousOperation : String) : Calculator ν :=
  updateDisplay
    { currentValue := "0"
      previousValue := ""
      operator := none
      shouldResetDisplay := false
      lastResult := none
      displayText := ""
      displayError := false
      previousOperationText := previousOperation
      timers := 0 }

/-- Method `clear`. -/
def clear (s : Calculator ν) : Calculator ν :=
  updatePreviousOperation
    (updateDisplay
      { s with
        currentValue := "0"
        previousValue := ""
        operator := none
        shouldResetDisplay := false
        lastResult := none })

/-- Method `showError`: show the message with the `error` class and schedule a `clear`. -/
def showError (s : Calculator ν) (message : String) : Calculator ν :=
  { s with displayText := message, displayError := true, timers := s.timers + 1 }

/-- The callback scheduled by `showError` fires (if one is pending). -/
def timeout (s : Calculator ν) : Calculator ν :=
  if s.timers = 0 then s else clear { s with timers := s.timers - 1 }

/-- Method `appendNumber`. -/
def appendNumber (s : Calculator ν) (number : String) : Calculator ν :=
  let s := if s.shouldResetDisplay then
      { s with currentValue := "0", shouldResetDisplay := false }
    else s
  if number = "." then
    if '.' ∈ s.currentValue.data then s
    else if s.currentValue = "0" ∨ s.currentValue = "" then
      updateDisplay { s with currentValue := "0." }
    else updateDisplay { s with currentValue := s.currentValue ++ "." }
  else if s.currentValue = "0" then updateDisplay { s with currentValue := number }
  else if s.currentValue.length < 12 then
    updateDisplay { s with currentValue := s.currentValue ++ number }
  else updateDisplay s

/-- The statement `result = Math.round(result * 100000000) / 100000000`. -/
def round8 (J : JS.NumberOps ν) (result : ν) : ν :=
  J.div (J.round (J.mul result (J.ofNat 100000000))) (J.ofNat 100000000)

/-- The tail of `calculate` after the `switch`: round, update the state, update both
display elements. -/
def finish (J : JS.NumberOps ν) (s : Calculator ν) (result : ν) : Calculator ν :=
  updatePreviousOperation
    (updateDisplay
      { s with
        lastResult := some (round8 J result)
        currentValue := J.toString (round8 J result)
        operator := none
        previousValue := ""
        shouldResetDisplay := true })

/-- Method `calculate`. -/
def calculate (J : JS.NumberOps ν) (s : Calculator ν) : Calculator ν :=
  match s.operator with
  | none => s
  | some op =>
    if s.previousValue = "" then s
    else
      let prev := J.parseFloat s.previousValue
      let current := J.parseFloat s.currentValue
      if J.isNaN prev || J.isNaN current then s
      else if op = "+" then finish J s (J.add prev current)
      else if op = "-" then finish J s (J.sub prev current)
      else if op = "*" then finish J s (J.mul prev current)
      else if op = "/" then
        if J.isZero current then showError s "Cannot divide by zero"
        else finish J s (J.div prev current)
      else s

/-- Method `setOperator`. -/
def setOperator (J : JS.NumberOps ν) (s : Calculator ν) (operator : String) : Calculator ν :=
  let s := if s.operator ≠ none ∧ s.shouldResetDisplay = false then calculate J s else s
  updatePreviousOperation
    { s with previousValue := s.currentValue, operator := some operator, shouldResetDisplay := true }

/-- Method `delete`; `slice(0, -1)` drops the last character. -/
def delete (s : Calculator ν) : Calculator ν :=
  if s.shouldResetDisplay then s
  else
    let sliced : String := String.mk s.currentValue.data.dropLast
    updateDisplay { s with currentValue := if sliced = "" ∨ sliced = "-" then "0" else sliced }

/-- Method `handleAction`. -/
def handleAction (J : JS.NumberOps ν) (s : Calculator ν) (action : String) : Calculator ν :=
  if action = "clear" then clear s
  else if action = "delete" then delete s
  else if action = "equals" then calculate J s
  else s

/-- The user actions of the calculator: the three kinds of buttons (equivalently the mapped
keys) and the firing of an error timer. -/
inductive Event where
  | number (number : String)
  | operator (operator : String)
  | action (action : String)
  | timeout
  deriving DecidableEq, Repr

/-- One event handled to completion. -/
def step (J : JS.NumberOps ν) (s : Calculator ν) : Event → Calculator ν
  | .number n => appendNumber s n
  | .operator op => setOperator J s op
  | .action a => handleAction J s a
  | .timeout => timeout s

/-- A sequence of events handled in order. -/
def run (J : JS.NumberOps ν) (s : Calculator ν) (events : List Event) : Calculator ν :=
  events.foldl (step J) s

/-- The tokens carried by number buttons and number keys: a digit or the decimal point. -/
def isToken (number : String) : Bool :=
  number ∈ ["0", "1", "2", "3", "4", "5", "6", "7", "8", "9", "."]

/-- The operators carried by operator buttons and operator keys. -/
def isOperator (operator : String) : Bool :=
  operator ∈ ["+", "-", "*", "/"]

/-- The actions carried by action buttons and action keys. -/
def isAction (action : String) : Bool :=
  action ∈ ["clear", "delete", "equals"]

/-- Events the page can deliver. -/
def Event.wellFormed : Event → Bool
  | .number n => isToken n
  | .operator op => isOperator op
  | .action a => isAction a
  | .timeout => true

/-- The invariant of the event loop: operator and operand are pending together, and the
current entry is never empty. -/
def Consistent (s : Calculator ν) : Prop :=
  (s.operator = none ↔ s.previousValue = "") ∧ s.currentValue ≠ ""

/-- The state after typing `0.1`, `+`, `0.2`. -/
def pointOnePlusPointTwo : Calculator JS.Float64 :=
  { currentValue := "0.2"
    previousValue := "0.1"
    operator := some "+"
    shouldResetDisplay := false
    lastResult := none
    displayText := "0.2"
    displayError := false
    previousOperationText := "0.1 +"
    timers := 0 }

/-- The state after typing `1`, `/`, `3`. -/
def oneOverThree : Calculator JS.Float64 :=
  { currentValue := "3"
    previousValue := "1"
    operator := some "/"
    shouldResetDisplay := false
    lastResult := none
    displayText := "3"
    displayError := false
    previousOperationText := "1 ÷"
    timers := 0 }

/-- The state after typing `7`, `/`, `0`. -/
def sevenOverZero : Calculator JS.Float64 :=
  { currentValue := "0"
    previousValue := "7"
    operator := some "/"
    shouldResetDisplay := false
    lastResult := none
    displayText := "0"
    displayError := false
    previousOperationText := "7 ÷"
    timers := 0 }

/-- A state whose pending operand is the text "NaN": pending division, current entry `0`. -/
def nanOverZero : Calculator JS.Float64 :=
  { currentValue := "0"
    previousValue := "NaN"
    operator := some "/"
    shouldResetDisplay := false
    lastResult := some JS.Float64.nan
    displayText := "0"
    displayError := false
    previousOperationText := "NaN ÷"
    timers := 0 }

/-- Button presses that overflow to `Infinity`, subtract it from itself and then divide the
resulting `NaN` by `0`. -/
def overflowTrace : List Event :=
  List.replicate 12 (.number "9") ++ [.operator "*"] ++ List.replicate 12 (.number "9")
    ++ [.action "equals", .operator "*", .action "equals", .operator "*", .action "equals",
      .operator "*", .action "equals", .operator "*", .action "equals", .operator "-",
      .action "equals", .operator "/", .number "0"]

/-- The button presses `2 + 3 = * 4` followed by a backspace and a stray error timer. -/
def sampleEvents : List Event :=
  [.number "2", .operator "+", .number "3", .action "equals", .operator "*", .number "4",
    .action "delete", .timeout]

/-- Twelve digit tokens followed by the decimal point. -/
def twelveDigitsThenPoint : List String :=
  ["1", "2", "3", "4", "5", "6", "7", "8", "9", "0", "1", "2", "."]

/-- The state after typing `6`, `*`, `7`. -/
def sixTimesSeven : Calculator JS.Float64 :=
  { currentValue := "7"
    previousValue := "6"
    operator := some "*"
    shouldResetDisplay := false
    lastResult := none
    displayText := "7"
    displayError := false
    previousOperationText := "6 ×"
    timers := 0 }

/-- The button presses `1 2`, three backspaces, `+` and `=`. -/
def backspaceEvents : List Event :=
  [.number "1", .number "2", .action "delete", .action "delete", .action "delete",
    .operator "+", .action "equals"]

/-- The current entry contains at most one decimal point. -/
def OnePoint (s : Calculator ν) : Prop :=
  s.currentValue.data.count '.' ≤ 1

/-- The button presses `1 . 5 + 2 . .`. -/
def pointEvents : List Event :=
  [.number "1", .number ".", .number "5", .operator "+", .number "2", .number ".", .number "."]

end Calculator

/-! ## Image gallery (`Image Gallery/script.js`) -/

/-- A `.gallery-item` element: its identity as a DOM node, its `data-category` attribute
(`none` when absent) and the `src` and `alt` of the image it contains. -/
structure GalleryItem where
  id : Nat
  category : Option String
  src : String
  alt : String
  deriving DecidableEq, Repr

/-- The result of running a handler: it returns, or a `TypeError` escapes it. -/
inductive Completion where
  | normal
  | typeError
  deriving DecidableEq, Repr

/-- The two state variables of the script, the node list `galleryItems`, and the DOM state
the script reads and writes: the `data-filter` value of the button carrying `active`, the
items carrying `hide`, the `active` class of the lightbox, `body.style.overflow`, the
opacity, source and caption of the lightbox image, and the items whose image swap is
scheduled by `setTimeout` and has not happened yet. -/
structure Gallery where
  galleryItems : List GalleryItem
  currentIndex : Int
  filteredItems : List GalleryItem
  activeFilter : Option String
  hidden : List GalleryItem
  lightboxActive : Bool
  bodyOverflow : String
  imgOpacity : String
  imgSrc : String
  caption : String
  pendingSwaps : List GalleryItem
  deriving DecidableEq, Repr

namespace Gallery

/-- The state once the `DOMContentLoaded` handler has run on a page whose markup has the
items `galleryItems` (none hidden), the button with `data-filter` value `activeFilter`
marked active, and a closed lightbox showing `imgSrc` and `caption`. -/
def init (galleryItems : List GalleryItem) (activeFilter : Option String)
    (imgSrc caption : String) : Gallery :=
  { galleryItems := galleryItems
    currentIndex := 0
    filteredItems := galleryItems
    activeFilter := activeFilter
    hidden := []
    lightboxActive := false
    bodyOverflow := ""
    imgOpacity := ""
    imgSrc := imgSrc
    caption := caption
    pendingSwaps := [] }

/-- The test `filterValue === 'all' || filterValue === itemCategory`. -/
def matchesFilter (filterValue : Option String) (item : GalleryItem) : Bool :=
  filterValue = some "all" || filterValue = item.category

/-- Click handler of a filter button whose `data-filter` attribute is `filterValue`. -/
def filterClick (g : Gallery) (filterValue : Option String) : Gallery :=
  { g with
    activeFilter := filterValue
    filteredItems := g.galleryItems.filter (matchesFilter filterValue)
    hidden := g.galleryItems.filter (fun item => !matchesFilter filterValue item) }

/-- The array access `filteredItems[currentIndex]`; `none` is `undefined`. -/
def currentItem (g : Gallery) : Option GalleryItem :=
  if g.currentIndex < 0 then none else g.filteredItems.get? g.currentIndex.toNat

/-- Function `updateLightboxImage`: `item.querySelector` throws when `item` is `undefined`;
otherwise the image is faded out and the swap scheduled. -/
def updateLightboxImage (g : Gallery) : Gallery × Completion :=
  match currentItem g with
  | none => (g, .typeError)
  | some item => ({ g with imgOpacity := "0", pendingSwaps := g.pendingSwaps ++ [item] }, .normal)

/-- The callback scheduled by `updateLightboxImage` fires (if one is pending). -/
def swapImage (g : Gallery) : Gallery :=
  match g.pendingSwaps with
  | [] => g
  | item :: rest =>
    { g with imgSrc := item.src, caption := item.alt, imgOpacity := "1", pendingSwaps := rest }

/-- Function `openLightbox`. -/
def openLightbox (g : Gallery) (index : Int) : Gallery × Completion :=
  match updateLightboxImage { g with currentIndex := index } with
  | (g1, .normal) => ({ g1 with lightboxActive := true, bodyOverflow := "hidden" }, .normal)
  | (g1, .typeError) => (g1, .typeError)

/-- Function `closeLightbox`. -/
def closeLightbox (g : Gallery) : Gallery :=
  { g with lightboxActive := false, bodyOverflow := "auto" }

/-- Function `navigateLightbox`. -/
def navigateLightbox (g : Gallery) (direction : String) : Gallery × Completion :=
  if direction = "next" then
    let i := g.currentIndex + 1
    updateLightboxImage { g with currentIndex := if i ≥ g.filteredItems.length then 0 else i }
  else
    let i := g.currentIndex - 1
    updateLightboxImage
      { g with currentIndex := if i < 0 then (g.filteredItems.length : Int) - 1 else i }

/-- The call `filteredItems.indexOf(item)`; `-1` when the item is absent. -/
def indexOf (items : List GalleryItem) (item : GalleryItem) : Int :=
  if item ∈ items then (items.indexOf item : Int) else -1

/-- Click handler of a gallery item. -/
def itemClick (g : Gallery) (item : GalleryItem) : Gallery × Completion :=
  if indexOf g.filteredItems item ≠ -1 then openLightbox g (indexOf g.filteredItems item)
  else (g, .normal)

/-- The `keydown` handler of the gallery. -/
def keydown (g : Gallery) (key : String) : Gallery × Completion :=
  if g.lightboxActive = false then (g, .normal)
  else
    let g := if key = "Escape" then closeLightbox g else g
    if key = "ArrowRight" then navigateLightbox g "next"
    else if key = "ArrowLeft" then navigateLightbox g "prev"
    else (g, .normal)

/-- A page with three items tagged nature, city, nature. -/
def threeItems : Gallery :=
  init [⟨0, some "nature", "a.jpg", "A"⟩, ⟨1, some "city", "b.jpg", "B"⟩,
    ⟨2, some "nature", "c.jpg", "C"⟩] (some "all") "" ""

/-- A page with five items, all visible, and the lightbox open at `index`. -/
def fiveItemsAt (index : Int) : Gallery :=
  (openLightbox
    (init [⟨0, some "nature", "a.jpg", "A"⟩, ⟨1, some "city", "b.jpg", "B"⟩,
      ⟨2, some "nature", "c.jpg", "C"⟩, ⟨3, some "city", "d.jpg", "D"⟩,
      ⟨4, some "people", "e.jpg", "E"⟩] (some "all") "" "") index).1

/-- Two nature items; the first is opened in the lightbox and then the filter "city" is
clicked, which leaves no visible item. -/
def emptyFiltered : Gallery :=
  filterClick
    (itemClick
      (init [⟨0, some "nature", "a.jpg", "A"⟩, ⟨1, some "nature", "b.jpg", "B"⟩] (some "all")
        "" "")
      ⟨0, some "nature", "a.jpg", "A"⟩).1
    (some "city")

/-- The user actions of the gallery: a click on a filter button, on a gallery item, on the
close control (or on the overlay), on the next and previous controls (as the direction
passed to `navigateLightbox`), a key press, and the firing of an image-swap timer. -/
inductive Event where
  | filter (filterValue : Option String)
  | item (item : GalleryItem)
  | close
  | navigate (direction : String)
  | key (key : String)
  | swap
  deriving DecidableEq, Repr

/-- One event handled to completion; a `TypeError` ends the handler and the state variables
keep what was assigned before it. -/
def step (g : Gallery) : Event → Gallery
  | .filter filterValue => filterClick g filterValue
  | .item item => (itemClick g item).1
  | .close => closeLightbox g
  | .navigate direction => (navigateLightbox g direction).1
  | .key key => (keydown g key).1
  | .swap => swapImage g

/-- A sequence of events handled in order. -/
def run (g : Gallery) (events : List Event) : Gallery :=
  events.foldl step g

/-- Every filter click of the sequence happens while the lightbox is closed. -/
def filtersWhileClosed : Gallery → List Event → Bool
  | _, [] => true
  | g, .filter filterValue :: events =>
    !g.lightboxActive && filtersWhileClosed (step g (.filter filterValue)) events
  | g, event :: events => filtersWhileClosed (step g event) events

/-- Three items tagged nature, city, nature; the third is opened in the lightbox and then the
filter "city" is clicked. -/
def staleCursor : Gallery :=
  run threeItems [.item ⟨2, some "nature", "c.jpg", "C"⟩, .filter (some "city")]

/-- While the lightbox is open the cursor is inside the visible list. -/
def CursorValid (g : Gallery) : Prop :=
  g.lightboxActive = true → 0 ≤ g.currentIndex ∧ g.currentIndex < g.filteredItems.length

/-- Filter "nature", open the third item, previous, close, filter "city", open the second
item. -/
def browseEvents : List Event :=
  [.filter (some "nature"), .item ⟨2, some "nature", "c.jpg", "C"⟩, .navigate "prev", .close,
    .filter (some "city"), .item ⟨1, some "city", "b.jpg", "B"⟩]

end Gallery

/-! ## Theorems -/

set_option maxRecDepth 100000
set_option exponentiation.threshold 2000

theorem JS.Float64.toDigitsCore_ne_nil (b fuel n : Nat) (ds : List Char) (h : ds ≠ [] ∨ 0 < fuel) :
    Nat.toDigitsCore b fuel n ds ≠ [] := by
  induction fuel generalizing n ds with
  | zero =>
    rcases h with h | h
    · simpa [Nat.toDigitsCore] using h
    · omega
  | succ f ih =>
    simp only [Nat.toDigitsCore]
    split
    · simp
    · exact ih _ _ (Or.inl (by simp))

theorem JS.Float64.toDigits_ne_nil (n : Nat) : Nat.toDigits 10 n ≠ [] :=
  toDigitsCore_ne_nil 10 (n + 1) n [] (Or.inr (Nat.succ_pos n))

theorem JS.Float64.formatPositive_ne_nil (m : Nat) (e : Int) : formatPositive m e ≠ [] := by
  have hd := toDigits_ne_nil (shortest 17 1 m e).1
  unfold formatPositive
  simp only
  split_ifs <;> simp [hd]

theorem JS.Float64.toString_ne_empty (x : Float64) : toString x ≠ "" := by
  cases x with
  | nan => decide
  | inf s => cases s <;> decide
  | fin s m e =>
    simp only [toString]
    split_ifs
    · decide
    · intro h; simpa using congrArg String.data h
    · intro h
      exact formatPositive_ne_nil m e (by simpa using congrArg String.data h)

/-- The binary64 primitives satisfy the two facts of `NumberOps.Lawful`. -/
theorem JS.Float64.ops_lawful : JS.Float64.ops.Lawful :=
  ⟨rfl, JS.Float64.toString_ne_empty⟩

/-! ### Calculator: `calculate` -/

/-- With no pending operator `calculate` returns at its first guard. -/
theorem Calculator.calculate_of_operator_none {ν : Type} (J : JS.NumberOps ν) (s : Calculator ν)
    (h : s.operator = none) : Calculator.calculate J s = s := by
  simp [Calculator.calculate, h]

/-- When both operands parse, the operator is pending and the `switch` assigns `r` to
`result`, `calculate` ends in `finish`. -/
theorem Calculator.calculate_eq_finish {ν : Type} (J : JS.NumberOps ν) (hJ : J.Lawful)
    (s : Calculator ν) (op : String) (hop : s.operator = some op)
    (ha : J.isNaN (J.parseFloat s.previousValue) = false)
    (hb : J.isNaN (J.parseFloat s.currentValue) = false) :
    (op = "+" → Calculator.calculate J s
        = Calculator.finish J s (J.add (J.parseFloat s.previousValue) (J.parseFloat s.currentValue)))
    ∧ (op = "-" → Calculator.calculate J s
        = Calculator.finish J s (J.sub (J.parseFloat s.previousValue) (J.parseFloat s.currentValue)))
    ∧ (op = "*" → Calculator.calculate J s
        = Calculator.finish J s (J.mul (J.parseFloat s.previousValue) (J.parseFloat s.currentValue)))
    ∧ (op = "/" → J.isZero (J.parseFloat s.currentValue) = false → Calculator.calculate J s
        = Calculator.finish J s (J.div (J.parseFloat s.previousValue) (J.parseFloat s.currentValue))) := by
  have hne : s.previousValue ≠ "" := by
    intro h
    rw [h, hJ.1] at ha
    exact Bool.noConfusion ha
  refine ⟨?_, ?_, ?_, ?_⟩
  · rintro rfl
    simp [Calculator.calculate, hop, hne, ha, hb]
  · rintro rfl
    simp [Calculator.calculate, hop, hne, ha, hb]
  · rintro rfl
    simp [Calculator.calculate, hop, hne, ha, hb]
  · rintro rfl hz
    simp [Calculator.calculate, hop, hne, ha, hb, hz]

/-- C1: when an operator is pending and both operands parse to numbers `a` and `b`,
`calculate` stores in `lastResult` the value `Math.round((a op b) * 100000000) / 100000000`
for `+`, `-` and `*`, and for `/` whenever `b` is not zero. -/
theorem Calculator.calculate_lastResult {ν : Type} (J : JS.NumberOps ν) (hJ : J.Lawful)
    (s : Calculator ν) (op : String) (hop : s.operator = some op)
    (ha : J.isNaN (J.parseFloat s.previousValue) = false)
    (hb : J.isNaN (J.parseFloat s.currentValue) = false) :
    (op = "+" → (Calculator.calculate J s).lastResult = some (J.div (J.round (J.mul
        (J.add (J.parseFloat s.previousValue) (J.parseFloat s.currentValue))
        (J.ofNat 100000000))) (J.ofNat 100000000)))
    ∧ (op = "-" → (Calculator.calculate J s).lastResult = some (J.div (J.round (J.mul
        (J.sub (J.parseFloat s.previousValue) (J.parseFloat s.currentValue))
        (J.ofNat 100000000))) (J.ofNat 100000000)))
    ∧ (op = "*" → (Calculator.calculate J s).lastResult = some (J.div (J.round (J.mul
        (J.mul (J.parseFloat s.previousValue) (J.parseFloat s.currentValue))
        (J.ofNat 100000000))) (J.ofNat 100000000)))
    ∧ (op = "/" → J.isZero (J.parseFloat s.currentValue) = false →
        (Calculator.calculate J s).lastResult = some (J.div (J.round (J.mul
        (J.div (J.parseFloat s.previousValue) (J.parseFloat s.currentValue))
        (J.ofNat 100000000))) (J.ofNat 100000000))) := by
  obtain ⟨h1, h2, h3, h4⟩ := Calculator.calculate_eq_finish J hJ s op hop ha hb
  refine ⟨fun h => ?_, fun h => ?_, fun h => ?_, fun h hz => ?_⟩
  · rw [h1 h]; rfl
  · rw [h2 h]; rfl
  · rw [h3 h]; rfl
  · rw [h4 h hz]; rfl

/-- Witness for C1 on binary64: `0.1 + 0.2` is stored as the number printed `0.3`, and
`1 / 3` as the number printed `0.33333333`. -/
theorem Calculator.calculate_lastResult_witness :
    ((Calculator.calculate JS.Float64.ops Calculator.pointOnePlusPointTwo).lastResult
        = some (JS.Float64.ops.div (JS.Float64.ops.round (JS.Float64.ops.mul
            (JS.Float64.ops.add (JS.Float64.ops.parseFloat "0.1") (JS.Float64.ops.parseFloat "0.2"))
            (JS.Float64.ops.ofNat 100000000))) (JS.Float64.ops.ofNat 100000000))
      ∧ (Calculator.calculate JS.Float64.ops Calculator.pointOnePlusPointTwo).lastResult
        = some (JS.Float64.parseFloat "0.3"))
    ∧ ((Calculator.calculate JS.Float64.ops Calculator.oneOverThree).lastResult
        = some (JS.Float64.ops.div (JS.Float64.ops.round (JS.Float64.ops.mul
            (JS.Float64.ops.div (JS.Float64.ops.parseFloat "1") (JS.Float64.ops.parseFloat "3"))
            (JS.Float64.ops.ofNat 100000000))) (JS.Float64.ops.ofNat 100000000))
      ∧ (Calculator.calculate JS.Float64.ops Calculator.oneOverThree).lastResult
        = some (JS.Float64.parseFloat "0.33333333")) :=
  ⟨⟨(Calculator.calculate_lastResult JS.Float64.ops JS.Float64.ops_lawful
        Calculator.pointOnePlusPointTwo "+" rfl (by decide) (by decide)).1 rfl, by decide⟩,
    ⟨(Calculator.calculate_lastResult JS.Float64.ops JS.Float64.ops_lawful
        Calculator.oneOverThree "/" rfl (by decide) (by decide)).2.2.2 rfl (by decide),
      by decide⟩⟩


/-- C2 (as amended): when the pending operator is `/`, the pending operand parses to a number
and the current entry parses to zero, `calculate` changes nothing but the display, which shows
"Cannot divide by zero" with the `error` class, and schedules one `clear`; when that timer
fires the calculator is in its initial state. -/
theorem Calculator.calculate_divide_by_zero {ν : Type} (J : JS.NumberOps ν) (hJ : J.Lawful)
    (s : Calculator ν) (hop : s.operator = some "/")
    (ha : J.isNaN (J.parseFloat s.previousValue) = false)
    (hb : J.isNaN (J.parseFloat s.currentValue) = false)
    (hz : J.isZero (J.parseFloat s.currentValue) = true) :
    Calculator.calculate J s
        = { s with
            displayText := "Cannot divide by zero"
            displayError := true
            timers := s.timers + 1 }
      ∧ Calculator.timeout (Calculator.calculate J s)
        = { (Calculator.new "" : Calculator ν) with timers := s.timers } := by
  have hne : s.previousValue ≠ "" := by
    intro h
    rw [h, hJ.1] at ha
    exact Bool.noConfusion ha
  have hc : Calculator.calculate J s
      = { s with
          displayText := "Cannot divide by zero"
          displayError := true
          timers := s.timers + 1 } := by
    simp [Calculator.calculate, hop, hne, ha, hb, hz, Calculator.showError]
  refine ⟨hc, ?_⟩
  rw [hc]
  simp [Calculator.timeout, Calculator.clear, Calculator.new, Calculator.updateDisplay,
    Calculator.updatePreviousOperation]

/-- Witness for C2 (as amended): `7 / 0` on binary64. -/
theorem Calculator.calculate_divide_by_zero_witness :
    JS.Float64.ops.Lawful
      ∧ Calculator.sevenOverZero.operator = some "/"
      ∧ JS.Float64.ops.isNaN (JS.Float64.ops.parseFloat Calculator.sevenOverZero.previousValue) = false
      ∧ JS.Float64.ops.isNaN (JS.Float64.ops.parseFloat Calculator.sevenOverZero.currentValue) = false
      ∧ JS.Float64.ops.isZero (JS.Float64.ops.parseFloat Calculator.sevenOverZero.currentValue) = true
      ∧ Calculator.calculate JS.Float64.ops Calculator.sevenOverZero
        = { Calculator.sevenOverZero with
            displayText := "Cannot divide by zero"
            displayError := true
            timers := Calculator.sevenOverZero.timers + 1 }
      ∧ Calculator.timeout (Calculator.calculate JS.Float64.ops Calculator.sevenOverZero)
        = { (Calculator.new "" : Calculator JS.Float64) with
            timers := Calculator.sevenOverZero.timers } :=
  ⟨JS.Float64.ops_lawful, rfl, by decide, by decide, by decide,
    Calculator.calculate_divide_by_zero JS.Float64.ops JS.Float64.ops_lawful
      Calculator.sevenOverZero rfl (by decide) (by decide) (by decide)⟩

/-- C2 (as stated) fails: with pending operator `/`, pending operand "NaN" and current entry
"0" (which parses to zero), `calculate` returns at the `isNaN` guard: the state is unchanged,
no error message is shown and no `clear` is scheduled. -/
theorem Calculator.calculate_divide_by_zero_counterexample :
    Calculator.nanOverZero.operator = some "/"
      ∧ JS.Float64.isNaN (JS.Float64.parseFloat Calculator.nanOverZero.currentValue) = false
      ∧ JS.Float64.isZero (JS.Float64.parseFloat Calculator.nanOverZero.currentValue) = true
      ∧ Calculator.calculate JS.Float64.ops Calculator.nanOverZero = Calculator.nanOverZero
      ∧ (Calculator.calculate JS.Float64.ops Calculator.nanOverZero).displayText
        ≠ "Cannot divide by zero"
      ∧ (Calculator.calculate JS.Float64.ops Calculator.nanOverZero).displayError = false
      ∧ (Calculator.calculate JS.Float64.ops Calculator.nanOverZero).timers = 0 := by
  decide

/-- The state `nanOverZero` is reached from the initial state by button presses:
`999999999999 * 999999999999 =`, then `* =` four times (overflow to `Infinity`), then `- =`
(`Infinity - Infinity` is `NaN`), then `/` and `0`. -/
theorem Calculator.nanOverZero_reachable :
    Calculator.run JS.Float64.ops (Calculator.new "") Calculator.overflowTrace
      = Calculator.nanOverZero := by
  decide

/-! ### Calculator: invariants of the event loop -/

theorem Calculator.string_append_ne_empty (a b : String) (h : a ≠ "") : a ++ b ≠ "" := by
  intro hab
  apply h
  have := congrArg String.length hab
  simp only [String.length_append] at this
  have h0 : a.length = 0 := by
    have : ("" : String).length = 0 := rfl
    omega
  exact String.ext (List.length_eq_zero.mp h0)

theorem Calculator.updatePreviousOperation_fields {ν : Type} (s : Calculator ν) :
    (Calculator.updatePreviousOperation s).currentValue = s.currentValue
      ∧ (Calculator.updatePreviousOperation s).previousValue = s.previousValue
      ∧ (Calculator.updatePreviousOperation s).operator = s.operator
      ∧ (Calculator.updatePreviousOperation s).shouldResetDisplay = s.shouldResetDisplay
      ∧ (Calculator.updatePreviousOperation s).lastResult = s.lastResult := by
  unfold Calculator.updatePreviousOperation
  split
  · split_ifs <;> simp
  · simp

theorem Calculator.isToken_ne_empty (number : String) (h : Calculator.isToken number = true) :
    number ≠ "" := by
  rintro rfl
  exact absurd h (by decide)

theorem Calculator.appendNumber_consistent {ν : Type} (s : Calculator ν) (number : String)
    (hn : number ≠ "") (h : s.Consistent) : (Calculator.appendNumber s number).Consistent := by
  obtain ⟨h1, h2⟩ := h
  unfold Calculator.appendNumber
  by_cases hr : s.shouldResetDisplay = true
  · simp only [hr, if_true]
    split_ifs <;>
      simp_all [Calculator.Consistent, Calculator.updateDisplay,
        Calculator.string_append_ne_empty]
  · simp only [hr]
    split_ifs <;>
      simp_all [Calculator.Consistent, Calculator.updateDisplay,
        Calculator.string_append_ne_empty]

theorem Calculator.calculate_consistent {ν : Type} (J : JS.NumberOps ν) (hJ : J.Lawful)
    (s : Calculator ν) (h : s.Consistent) : (Calculator.calculate J s).Consistent := by
  have hf : ∀ r, (Calculator.finish J s r).Consistent := by
    intro r
    obtain ⟨f1, f2, f3, -, -⟩ := Calculator.updatePreviousOperation_fields
      (Calculator.updateDisplay
        { s with
          lastResult := some (Calculator.round8 J r)
          currentValue := J.toString (Calculator.round8 J r)
          operator := none
          previousValue := ""
          shouldResetDisplay := true })
    refine ⟨?_, ?_⟩
    · unfold Calculator.finish
      rw [f3, f2]
      simp [Calculator.updateDisplay]
    · unfold Calculator.finish
      rw [f1]
      exact hJ.2 _
  unfold Calculator.calculate
  split
  · exact h
  · dsimp only
    split_ifs
    all_goals first
      | exact h
      | exact hf _

theorem Calculator.setOperator_consistent {ν : Type} (J : JS.NumberOps ν) (hJ : J.Lawful)
    (s : Calculator ν) (operator : String) (h : s.Consistent) :
    (Calculator.setOperator J s operator).Consistent := by
  have key : ∀ t : Calculator ν, t.Consistent →
      (Calculator.updatePreviousOperation
        { t with
          previousValue := t.currentValue
          operator := some operator
          shouldResetDisplay := true }).Consistent := by
    intro t ht
    obtain ⟨f1, f2, f3, -, -⟩ := Calculator.updatePreviousOperation_fields
      { t with
        previousValue := t.currentValue
        operator := some operator
        shouldResetDisplay := true }
    refine ⟨?_, ?_⟩
    · rw [f3, f2]
      simpa using ht.2
    · rw [f1]
      exact ht.2
  unfold Calculator.setOperator
  split_ifs
  · exact key _ (Calculator.calculate_consistent J hJ s h)
  · exact key _ h

theorem Calculator.clear_consistent {ν : Type} (s : Calculator ν) :
    (Calculator.clear s).Consistent := by
  obtain ⟨f1, f2, f3, -, -⟩ := Calculator.updatePreviousOperation_fields
    (Calculator.updateDisplay
      { s with
        currentValue := "0"
        previousValue := ""
        operator := none
        shouldResetDisplay := false
        lastResult := none })
  refine ⟨?_, ?_⟩
  · unfold Calculator.clear
    rw [f3, f2]
    simp [Calculator.updateDisplay]
  · unfold Calculator.clear
    rw [f1]
    simp [Calculator.updateDisplay]

theorem Calculator.delete_consistent {ν : Type} (s : Calculator ν) (h : s.Consistent) :
    (Calculator.delete s).Consistent := by
  unfold Calculator.delete
  split_ifs with hr
  · exact h
  · refine ⟨by simpa [Calculator.updateDisplay] using h.1, ?_⟩
    simp only [Calculator.updateDisplay]
    split_ifs with hs
    · decide
    · exact fun hc => hs (Or.inl hc)

theorem Calculator.step_consistent {ν : Type} (J : JS.NumberOps ν) (hJ : J.Lawful)
    (s : Calculator ν) (e : Calculator.Event) (he : e.wellFormed = true) (h : s.Consistent) :
    (Calculator.step J s e).Consistent := by
  cases e with
  | number n => exact Calculator.appendNumber_consistent s n (Calculator.isToken_ne_empty n he) h
  | operator op => exact Calculator.setOperator_consistent J hJ s op h
  | action a =>
    simp only [Calculator.step, Calculator.handleAction]
    split_ifs
    · exact Calculator.clear_consistent s
    · exact Calculator.delete_consistent s h
    · exact Calculator.calculate_consistent J hJ s h
    · exact h
  | timeout =>
    simp only [Calculator.step, Calculator.timeout]
    split_ifs
    · exact h
    · exact Calculator.clear_consistent _

theorem Calculator.run_consistent {ν : Type} (J : JS.NumberOps ν) (hJ : J.Lawful)
    (events : List Calculator.Event) (s : Calculator ν)
    (he : ∀ e ∈ events, Calculator.Event.wellFormed e = true) (h : s.Consistent) :
    (Calculator.run J s events).Consistent := by
  induction events generalizing s with
  | nil => exact h
  | cons e rest ih =>
    have hstep := Calculator.step_consistent J hJ s e (he e (List.mem_cons_self _ _)) h
    exact ih (Calculator.step J s e) (fun x hx => he x (List.mem_cons_of_mem _ hx)) hstep

theorem Calculator.new_consistent {ν : Type} (previousOperation : String) :
    (Calculator.new previousOperation : Calculator ν).Consistent := by
  refine ⟨?_, ?_⟩ <;> simp [Calculator.new, Calculator.updateDisplay]

/-- C3: in every state reached from the initial state by number, operator and action buttons
(and error timers), `operator` is `null` if and only if `previousValue` is empty. -/
theorem Calculator.operator_none_iff_previousValue_empty {ν : Type} (J : JS.NumberOps ν)
    (hJ : J.Lawful) (previousOperation : String) (events : List Calculator.Event)
    (he : ∀ e ∈ events, Calculator.Event.wellFormed e = true) :
    (Calculator.run J (Calculator.new previousOperation) events).operator = none
      ↔ (Calculator.run J (Calculator.new previousOperation) events).previousValue = "" :=
  (Calculator.run_consistent J hJ events _ he (Calculator.new_consistent previousOperation)).1

/-- Witness for C3: after `2 + 3 =` and then `* 4` on binary64 the operator `*` is pending
together with its operand. -/
theorem Calculator.operator_none_iff_previousValue_empty_witness :
    JS.Float64.ops.Lawful
      ∧ (∀ e ∈ Calculator.sampleEvents, Calculator.Event.wellFormed e = true)
      ∧ ((Calculator.run JS.Float64.ops (Calculator.new "") Calculator.sampleEvents).operator = none
        ↔ (Calculator.run JS.Float64.ops (Calculator.new "") Calculator.sampleEvents).previousValue
          = "") :=
  ⟨JS.Float64.ops_lawful, by decide,
    Calculator.operator_none_iff_previousValue_empty JS.Float64.ops JS.Float64.ops_lawful ""
      Calculator.sampleEvents (by decide)⟩

/-! ### Calculator: typing digits -/

/-- C4 (the code at the failing input): twelve digits followed by the decimal point leave a
current entry of thirteen characters, because only the digit branch of `appendNumber` checks
the length. -/
theorem Calculator.appendNumber_thirteen_characters :
    (Calculator.twelveDigitsThenPoint.foldl Calculator.appendNumber
        (Calculator.new "" : Calculator JS.Float64)).currentValue = "123456789012."
      ∧ (Calculator.twelveDigitsThenPoint.foldl Calculator.appendNumber
        (Calculator.new "" : Calculator JS.Float64)).currentValue.length = 13
      ∧ (∀ t ∈ Calculator.twelveDigitsThenPoint, Calculator.isToken t = true) := by
  decide

theorem Calculator.string_join_cons (t : String) (ts : List String) :
    String.join (t :: ts) = t ++ String.join ts := by
  apply String.ext
  simp [String.join_eq]

theorem Calculator.isToken_cases (t : String) (h : Calculator.isToken t = true) :
    t = "." ∨ (t ≠ "." ∧ t ≠ "" ∧ t.length = 1 ∧ '.' ∉ t.data) := by
  have hm : t ∈ ["0", "1", "2", "3", "4", "5", "6", "7", "8", "9", "."] := by
    simpa [Calculator.isToken] using h
  simp only [List.mem_cons, List.mem_singleton, List.not_mem_nil, or_false] at hm
  rcases hm with h | h | h | h | h | h | h | h | h | h | h
  all_goals subst h
  all_goals first
    | exact Or.inl rfl
    | exact Or.inr (by decide)

/-- Typing on: once the entry is neither "0" nor empty and the display is not about to be
reset, tokens that fit are appended literally. -/
theorem Calculator.foldl_appendNumber_append {ν : Type} (rest : List String) :
    ∀ s : Calculator ν, s.shouldResetDisplay = false → s.currentValue ≠ "0" →
      s.currentValue ≠ "" → (∀ t ∈ rest, Calculator.isToken t = true) →
      ('.' ∈ s.currentValue.data → "." ∉ rest) → rest.count "." ≤ 1 →
      s.currentValue.length + rest.length ≤ 12 →
      (rest.foldl Calculator.appendNumber s).currentValue = s.currentValue ++ String.join rest := by
  induction rest with
  | nil =>
    intro s _ _ _ _ _ _ _
    apply String.ext
    simp [String.join_eq]
  | cons t rest ih =>
    intro s hr h0 he ht hdot hcount hlen
    have hlen1 : 2 ≤ (s.currentValue ++ t).length := by
      have h1 : 0 < s.currentValue.length := by
        rcases Nat.eq_zero_or_pos s.currentValue.length with h | h
        · exact absurd (String.ext (List.length_eq_zero.mp h)) he
        · exact h
      have h2 : 0 < t.length := by
        rcases Calculator.isToken_cases t (ht t (List.mem_cons_self _ _)) with h | ⟨_, _, h, _⟩
        · subst h; decide
        · omega
      rw [String.length_append]
      omega
    have hne0 : s.currentValue ++ t ≠ "0" := by
      intro h
      rw [h] at hlen1
      exact absurd hlen1 (by decide)
    have hnee : s.currentValue ++ t ≠ "" := by
      intro h
      rw [h] at hlen1
      exact absurd hlen1 (by decide)
    have hstep : Calculator.appendNumber s t
        = Calculator.updateDisplay { s with currentValue := s.currentValue ++ t } := by
      rcases Calculator.isToken_cases t (ht t (List.mem_cons_self _ _)) with h | ⟨h, _, _, _⟩
      · subst h
        have hnd : '.' ∉ s.currentValue.data := fun hc => hdot hc (List.mem_cons_self _ _)
        simp [Calculator.appendNumber, hr, hnd, h0, he]
      · have hl : s.currentValue.length < 12 := by
          simp only [List.length_cons] at hlen
          omega
        simp [Calculator.appendNumber, hr, h, h0, hl]
    simp only [List.foldl_cons, hstep]
    have hlen2 : (s.currentValue ++ t).length = s.currentValue.length + 1 := by
      rw [String.length_append]
      rcases Calculator.isToken_cases t (ht t (List.mem_cons_self _ _)) with h | ⟨_, _, h, _⟩
      · subst h; rfl
      · omega
    rw [ih (Calculator.updateDisplay { s with currentValue := s.currentValue ++ t }) hr hne0 hnee
      (fun x hx => ht x (List.mem_cons_of_mem _ hx)) ?_ ?_ ?_]
    · show s.currentValue ++ t ++ String.join rest = s.currentValue ++ String.join (t :: rest)
      rw [Calculator.string_join_cons, String.append_assoc]
    · show '.' ∈ (s.currentValue ++ t).data → "." ∉ rest
      intro hmem hin
      rcases Calculator.isToken_cases t (ht t (List.mem_cons_self _ _)) with h | ⟨_, _, _, h⟩
      · subst h
        have : 0 < List.count "." rest := List.count_pos_iff.mpr hin
        simp only [List.count_cons_self] at hcount
        omega
      · rw [String.data_append, List.mem_append] at hmem
        rcases hmem with hm | hm
        · exact hdot hm (List.mem_cons_of_mem _ hin)
        · exact h hm
    · exact le_trans (List.count_le_count_cons _ _ _) hcount
    · show (s.currentValue ++ t).length + rest.length ≤ 12
      simp only [List.length_cons] at hlen
      omega

/-- C5 (as amended): let at most 12 tokens with at most one decimal point be typed into the
initial state.  If the first token is a digit and a leading "0" is followed by the decimal
point or by nothing, the current entry is the concatenation of the tokens; if the first token
is the decimal point and at most 11 tokens are typed, it is "0" followed by the
concatenation. -/
theorem Calculator.appendNumber_concatenation {ν : Type} (previousOperation d : String)
    (rest : List String) (ht : ∀ t ∈ d :: rest, Calculator.isToken t = true)
    (hlen : (d :: rest).length ≤ 12) (hcount : (d :: rest).count "." ≤ 1) :
    (d ≠ "." → (d = "0" → ∀ t, rest.head? = some t → t = ".") →
        ((d :: rest).foldl Calculator.appendNumber
          (Calculator.new previousOperation : Calculator ν)).currentValue
          = String.join (d :: rest))
      ∧ (d = "." → (d :: rest).length ≤ 11 →
        ((d :: rest).foldl Calculator.appendNumber
          (Calculator.new previousOperation : Calculator ν)).currentValue
          = "0" ++ String.join (d :: rest)) := by
  have htr : ∀ t ∈ rest, Calculator.isToken t = true := fun x hx => ht x (List.mem_cons_of_mem _ hx)
  simp only [List.length_cons] at hlen
  refine ⟨fun hd hz => ?_, fun hd hl => ?_⟩
  · obtain ⟨-, hde, hdl, hdd⟩ := (Calculator.isToken_cases d (ht d (List.mem_cons_self _ _))).resolve_left hd
    have hc : rest.count "." ≤ 1 := le_trans (List.count_le_count_cons _ _ _) hcount
    have h1 : Calculator.appendNumber (Calculator.new previousOperation : Calculator ν) d
        = Calculator.updateDisplay
          { (Calculator.new previousOperation : Calculator ν) with currentValue := d } := by
      simp [Calculator.appendNumber, Calculator.new, Calculator.updateDisplay, hd]
    rw [List.foldl_cons, h1, Calculator.string_join_cons]
    by_cases h0 : d = "0"
    · subst h0
      cases rest with
      | nil => rfl
      | cons t rest =>
        have ht1 : t = "." := hz rfl t rfl
        subst ht1
        have h2 : Calculator.appendNumber (Calculator.updateDisplay
              { (Calculator.new previousOperation : Calculator ν) with currentValue := "0" }) "."
            = Calculator.updateDisplay
              { (Calculator.new previousOperation : Calculator ν) with currentValue := "0." } := by
          simp [Calculator.appendNumber, Calculator.new, Calculator.updateDisplay]
        rw [List.foldl_cons, h2, Calculator.string_join_cons, ← String.append_assoc]
        have hc0 : rest.count "." = 0 := by
          simp only [List.count_cons_self] at hc
          omega
        simp only [List.length_cons] at hlen
        exact Calculator.foldl_appendNumber_append rest _ rfl
          (show ("0." : String) ≠ "0" by decide) (show ("0." : String) ≠ "" by decide)
          (fun x hx => htr x (List.mem_cons_of_mem _ hx))
          (fun _ hin => absurd (List.count_pos_iff.mpr hin) (by omega))
          (by omega) (by show ("0." : String).length + rest.length ≤ 12; simp only [show ("0." : String).length = 2 from rfl]; omega)
    · exact Calculator.foldl_appendNumber_append rest _ rfl h0 hde htr
        (fun hin => absurd hin hdd) hc (by show d.length + rest.length ≤ 12; omega)
  · subst hd
    have hc0 : rest.count "." = 0 := by
      simp only [List.count_cons_self] at hcount
      omega
    have h1 : Calculator.appendNumber (Calculator.new previousOperation : Calculator ν) "."
        = Calculator.updateDisplay
          { (Calculator.new previousOperation : Calculator ν) with currentValue := "0." } := by
      simp [Calculator.appendNumber, Calculator.new, Calculator.updateDisplay]
    rw [List.foldl_cons, h1, Calculator.string_join_cons, ← String.append_assoc]
    simp only [List.length_cons] at hl
    exact Calculator.foldl_appendNumber_append rest _ rfl
      (show ("0." : String) ≠ "0" by decide) (show ("0." : String) ≠ "" by decide) htr
      (fun _ hin => absurd (List.count_pos_iff.mpr hin) (by omega))
      (by omega) (by show ("0." : String).length + rest.length ≤ 12; simp only [show ("0." : String).length = 2 from rfl]; omega)

/-- Witness for C5 (as amended): typing `0.5` gives "0.5", typing `120.5` gives "120.5", and
typing `.5` gives "0.5". -/
theorem Calculator.appendNumber_concatenation_witness :
    ((∀ t ∈ ["1", "2", "0", ".", "5"], Calculator.isToken t = true)
      ∧ ["1", "2", "0", ".", "5"].length ≤ 12 ∧ ["1", "2", "0", ".", "5"].count "." ≤ 1
      ∧ (["1", "2", "0", ".", "5"].foldl Calculator.appendNumber
          (Calculator.new "" : Calculator JS.Float64)).currentValue
        = String.join ["1", "2", "0", ".", "5"])
    ∧ ((["0", ".", "5"].foldl Calculator.appendNumber
          (Calculator.new "" : Calculator JS.Float64)).currentValue
        = String.join ["0", ".", "5"])
    ∧ ((∀ t ∈ [".", "5"], Calculator.isToken t = true)
      ∧ [".", "5"].length ≤ 11 ∧ [".", "5"].count "." ≤ 1
      ∧ ([".", "5"].foldl Calculator.appendNumber
          (Calculator.new "" : Calculator JS.Float64)).currentValue
        = "0" ++ String.join [".", "5"]) :=
  ⟨⟨by decide, by decide, by decide,
      (Calculator.appendNumber_concatenation "" "1" ["2", "0", ".", "5"] (by decide) (by decide)
        (by decide)).1 (by decide) (by decide)⟩,
    (Calculator.appendNumber_concatenation "" "0" [".", "5"] (by decide) (by decide)
      (by decide)).1 (by decide) (fun _ t ht => by cases ht; rfl),
    ⟨by decide, by decide, by decide,
      (Calculator.appendNumber_concatenation "" "." ["5"] (by decide) (by decide)
        (by decide)).2 rfl (by decide)⟩⟩

/-- C5 (as stated) fails: typing `0` then `5` leaves "5", not the concatenation "05"; typing
the decimal point first leaves "0.", not "."; and of the twelve tokens `.12345678901` the
last digit is dropped. -/
theorem Calculator.appendNumber_concatenation_counterexample :
    ((∀ t ∈ ["0", "5"], Calculator.isToken t = true)
      ∧ ["0", "5"].length ≤ 12 ∧ ["0", "5"].count "." ≤ 1
      ∧ (["0", "5"].foldl Calculator.appendNumber
          (Calculator.new "" : Calculator JS.Float64)).currentValue = "5"
      ∧ String.join ["0", "5"] = "05")
    ∧ ([".", "5"].foldl Calculator.appendNumber
          (Calculator.new "" : Calculator JS.Float64)).currentValue = "0.5"
    ∧ ([".", "1", "2", "3", "4", "5", "6", "7", "8", "9", "0", "1"].foldl
          Calculator.appendNumber (Calculator.new "" : Calculator JS.Float64)).currentValue
        = "0.1234567890" := by
  decide

/-! ### Calculator: operators and results -/

theorem Calculator.isOperator_cases (op : String) (h : Calculator.isOperator op = true) :
    op = "+" ∨ op = "-" ∨ op = "*" ∨ op = "/" := by
  simpa [Calculator.isOperator] using h

/-- A successful `calculate`: the operator is one of the four, both operands parse, and the
operation is not a division by zero; then the method ends in `finish` applied to the value of
the operation. -/
theorem Calculator.calculate_success_eq {ν : Type} (J : JS.NumberOps ν) (hJ : J.Lawful)
    (s : Calculator ν) (op : String) (hop : s.operator = some op)
    (h4 : Calculator.isOperator op = true)
    (ha : J.isNaN (J.parseFloat s.previousValue) = false)
    (hb : J.isNaN (J.parseFloat s.currentValue) = false)
    (hz : ¬ (op = "/" ∧ J.isZero (J.parseFloat s.currentValue) = true)) :
    Calculator.calculate J s = Calculator.finish J s
      (if op = "+" then J.add (J.parseFloat s.previousValue) (J.parseFloat s.currentValue)
      else if op = "-" then J.sub (J.parseFloat s.previousValue) (J.parseFloat s.currentValue)
      else if op = "*" then J.mul (J.parseFloat s.previousValue) (J.parseFloat s.currentValue)
      else J.div (J.parseFloat s.previousValue) (J.parseFloat s.currentValue)) := by
  obtain ⟨h1, h2, h3, h5⟩ := Calculator.calculate_eq_finish J hJ s op hop ha hb
  rcases Calculator.isOperator_cases op h4 with h | h | h | h
  · rw [h1 h, if_pos h]
  · rw [h2 h]
    subst h
    rfl
  · rw [h3 h]
    subst h
    rfl
  · have hz1 : J.isZero (J.parseFloat s.currentValue) = false := by
      cases hzz : J.isZero (J.parseFloat s.currentValue)
      · rfl
      · exact absurd ⟨h, hzz⟩ hz
    rw [h5 h hz1]
    subst h
    rfl

theorem Calculator.finish_fields {ν : Type} (J : JS.NumberOps ν) (s : Calculator ν) (r : ν) :
    (Calculator.finish J s r).lastResult = some (Calculator.round8 J r)
      ∧ (Calculator.finish J s r).currentValue = J.toString (Calculator.round8 J r)
      ∧ (Calculator.finish J s r).operator = none
      ∧ (Calculator.finish J s r).previousValue = ""
      ∧ (Calculator.finish J s r).shouldResetDisplay = true
      ∧ (Calculator.finish J s r).displayText = J.toString (Calculator.round8 J r)
      ∧ (Calculator.finish J s r).displayError = false
      ∧ (Calculator.finish J s r).previousOperationText = ""
      ∧ (Calculator.finish J s r).timers = s.timers := by
  simp [Calculator.finish, Calculator.updatePreviousOperation, Calculator.updateDisplay]

/-- C6: for each of the four operators, `setOperator` leaves that operator pending, the
pending operand equal to the current entry and the reset flag set, and the indicator shows the
operand and the operator glyph; when an operator was pending on a completed entry and its
calculation succeeds, that entry is the printed result of the pending operation.  Typing
`2 + 3 *` leaves the operand "5" with `*` pending. -/
theorem Calculator.setOperator_pending {ν : Type} (J : JS.NumberOps ν) (hJ : J.Lawful)
    (s : Calculator ν) (op : String) (h4 : Calculator.isOperator op = true) :
    (Calculator.setOperator J s op).operator = some op
      ∧ (Calculator.setOperator J s op).previousValue = (Calculator.setOperator J s op).currentValue
      ∧ (Calculator.setOperator J s op).shouldResetDisplay = true
      ∧ ((Calculator.setOperator J s op).currentValue ≠ "" →
        (Calculator.setOperator J s op).previousOperationText
          = (Calculator.setOperator J s op).currentValue ++ " " ++ Calculator.operatorSymbol op)
      ∧ (∀ op0, s.operator = some op0 → Calculator.isOperator op0 = true →
        s.shouldResetDisplay = false →
        J.isNaN (J.parseFloat s.previousValue) = false →
        J.isNaN (J.parseFloat s.currentValue) = false →
        ¬ (op0 = "/" ∧ J.isZero (J.parseFloat s.currentValue) = true) →
        (Calculator.setOperator J s op).currentValue = J.toString (Calculator.round8 J
          (if op0 = "+" then J.add (J.parseFloat s.previousValue) (J.parseFloat s.currentValue)
          else if op0 = "-" then
            J.sub (J.parseFloat s.previousValue) (J.parseFloat s.currentValue)
          else if op0 = "*" then
            J.mul (J.parseFloat s.previousValue) (J.parseFloat s.currentValue)
          else J.div (J.parseFloat s.previousValue) (J.parseFloat s.currentValue))))
      ∧ (Calculator.run JS.Float64.ops (Calculator.new "")
          [.number "2", .operator "+", .number "3", .operator "*"]).previousValue = "5"
      ∧ (Calculator.run JS.Float64.ops (Calculator.new "")
          [.number "2", .operator "+", .number "3", .operator "*"]).operator = some "*" := by
  have hne : op ≠ "" := by
    rintro rfl
    exact absurd h4 (by decide)
  have key : ∀ t : Calculator ν,
      Calculator.setOperator J s op = Calculator.updatePreviousOperation
        { t with
          previousValue := t.currentValue
          operator := some op
          shouldResetDisplay := true } →
      (Calculator.setOperator J s op).operator = some op
        ∧ (Calculator.setOperator J s op).previousValue
          = (Calculator.setOperator J s op).currentValue
        ∧ (Calculator.setOperator J s op).shouldResetDisplay = true
        ∧ ((Calculator.setOperator J s op).currentValue ≠ "" →
          (Calculator.setOperator J s op).previousOperationText
            = (Calculator.setOperator J s op).currentValue ++ " " ++ Calculator.operatorSymbol op)
        ∧ (Calculator.setOperator J s op).currentValue = t.currentValue := by
    intro t ht
    rw [ht]
    by_cases hc : t.currentValue = "" <;>
      simp [Calculator.updatePreviousOperation, hne, hc]
  have hset : Calculator.setOperator J s op = Calculator.updatePreviousOperation
      { (if s.operator ≠ none ∧ s.shouldResetDisplay = false then Calculator.calculate J s
          else s) with
        previousValue := (if s.operator ≠ none ∧ s.shouldResetDisplay = false then
          Calculator.calculate J s else s).currentValue
        operator := some op
        shouldResetDisplay := true } := rfl
  obtain ⟨k1, k2, k3, k4, k5⟩ := key _ hset
  refine ⟨k1, k2, k3, k4, ?_, by decide, by decide⟩
  intro op0 hop0 h40 hr ha hb hz
  rw [k5, if_pos ⟨by simp [hop0], hr⟩,
    Calculator.calculate_success_eq J hJ s op0 hop0 h40 ha hb hz]
  exact (Calculator.finish_fields J s _).2.1

/-- Witness for C6: with `6 * 7` typed on binary64, choosing `-` folds the product and leaves
the operand "42" with `-` pending. -/
theorem Calculator.setOperator_pending_witness :
    JS.Float64.ops.Lawful
      ∧ Calculator.isOperator "-" = true
      ∧ (Calculator.setOperator JS.Float64.ops Calculator.sixTimesSeven "-").operator = some "-"
      ∧ (Calculator.setOperator JS.Float64.ops Calculator.sixTimesSeven "-").previousValue
        = (Calculator.setOperator JS.Float64.ops Calculator.sixTimesSeven "-").currentValue
      ∧ (Calculator.setOperator JS.Float64.ops Calculator.sixTimesSeven "-").shouldResetDisplay
        = true
      ∧ (Calculator.setOperator JS.Float64.ops Calculator.sixTimesSeven "-").currentValue
        = JS.Float64.ops.toString (Calculator.round8 JS.Float64.ops
          (JS.Float64.ops.mul (JS.Float64.ops.parseFloat "6") (JS.Float64.ops.parseFloat "7")))
      ∧ (Calculator.setOperator JS.Float64.ops Calculator.sixTimesSeven "-").previousValue = "42"
      ∧ (Calculator.setOperator JS.Float64.ops Calculator.sixTimesSeven "-").previousOperationText
        = "42 −" :=
  ⟨JS.Float64.ops_lawful, by decide,
    (Calculator.setOperator_pending JS.Float64.ops JS.Float64.ops_lawful
      Calculator.sixTimesSeven "-" (by decide)).1,
    (Calculator.setOperator_pending JS.Float64.ops JS.Float64.ops_lawful
      Calculator.sixTimesSeven "-" (by decide)).2.1,
    (Calculator.setOperator_pending JS.Float64.ops JS.Float64.ops_lawful
      Calculator.sixTimesSeven "-" (by decide)).2.2.1,
    (Calculator.setOperator_pending JS.Float64.ops JS.Float64.ops_lawful
      Calculator.sixTimesSeven "-" (by decide)).2.2.2.2.1 "*" rfl (by decide) rfl (by decide)
      (by decide) (by decide),
    by decide, by decide⟩

/-- C7: when `calculate` succeeds (one of the four operators is pending, both operands parse
and the operation is not a division by zero), `lastResult` is the value of the pending
operation on the two operands rounded by `Math.round(result * 100000000) / 100000000`, the
current entry and the display are that value printed by `toString`, no operator or operand is
pending, the reset flag is set and the previous-operation indicator is empty.  Typing
`5 + 3 =` into the initial state shows "8" with an empty indicator. -/
theorem Calculator.calculate_success {ν : Type} (J : JS.NumberOps ν) (hJ : J.Lawful)
    (s : Calculator ν) (op : String) (hop : s.operator = some op)
    (h4 : Calculator.isOperator op = true)
    (ha : J.isNaN (J.parseFloat s.previousValue) = false)
    (hb : J.isNaN (J.parseFloat s.currentValue) = false)
    (hz : ¬ (op = "/" ∧ J.isZero (J.parseFloat s.currentValue) = true)) :
    (Calculator.calculate J s).lastResult = some (J.div (J.round (J.mul
          (if op = "+" then J.add (J.parseFloat s.previousValue) (J.parseFloat s.currentValue)
          else if op = "-" then
            J.sub (J.parseFloat s.previousValue) (J.parseFloat s.currentValue)
          else if op = "*" then
            J.mul (J.parseFloat s.previousValue) (J.parseFloat s.currentValue)
          else J.div (J.parseFloat s.previousValue) (J.parseFloat s.currentValue))
          (J.ofNat 100000000))) (J.ofNat 100000000))
      ∧ (Calculator.calculate J s).currentValue = J.toString (J.div (J.round (J.mul
          (if op = "+" then J.add (J.parseFloat s.previousValue) (J.parseFloat s.currentValue)
          else if op = "-" then
            J.sub (J.parseFloat s.previousValue) (J.parseFloat s.currentValue)
          else if op = "*" then
            J.mul (J.parseFloat s.previousValue) (J.parseFloat s.currentValue)
          else J.div (J.parseFloat s.previousValue) (J.parseFloat s.currentValue))
          (J.ofNat 100000000))) (J.ofNat 100000000))
      ∧ (Calculator.calculate J s).displayText = J.toString (J.div (J.round (J.mul
          (if op = "+" then J.add (J.parseFloat s.previousValue) (J.parseFloat s.currentValue)
          else if op = "-" then
            J.sub (J.parseFloat s.previousValue) (J.parseFloat s.currentValue)
          else if op = "*" then
            J.mul (J.parseFloat s.previousValue) (J.parseFloat s.currentValue)
          else J.div (J.parseFloat s.previousValue) (J.parseFloat s.currentValue))
          (J.ofNat 100000000))) (J.ofNat 100000000))
      ∧ (Calculator.calculate J s).operator = none
      ∧ (Calculator.calculate J s).previousValue = ""
      ∧ (Calculator.calculate J s).shouldResetDisplay = true
      ∧ (Calculator.calculate J s).displayError = false
      ∧ (Calculator.calculate J s).previousOperationText = ""
      ∧ (∀ previousOperation : String,
        (Calculator.run JS.Float64.ops (Calculator.new previousOperation)
          [.number "5", .operator "+", .number "3", .action "equals"]).displayText = "8"
        ∧ (Calculator.run JS.Float64.ops (Calculator.new previousOperation)
          [.number "5", .operator "+", .number "3", .action "equals"]).currentValue = "8"
        ∧ (Calculator.run JS.Float64.ops (Calculator.new previousOperation)
          [.number "5", .operator "+", .number "3", .action "equals"]).previousOperationText
          = "") := by
  rw [Calculator.calculate_success_eq J hJ s op hop h4 ha hb hz]
  obtain ⟨f1, f2, f3, f4, f5, f6, f7, f8, -⟩ := Calculator.finish_fields J s
    (if op = "+" then J.add (J.parseFloat s.previousValue) (J.parseFloat s.currentValue)
      else if op = "-" then J.sub (J.parseFloat s.previousValue) (J.parseFloat s.currentValue)
      else if op = "*" then J.mul (J.parseFloat s.previousValue) (J.parseFloat s.currentValue)
      else J.div (J.parseFloat s.previousValue) (J.parseFloat s.currentValue))
  exact ⟨f1, f2, f6, f3, f4, f5, f7, f8, fun _ => ⟨rfl, rfl, rfl⟩⟩

/-- Witness for C7: `6 * 7 =` on binary64 stores the number 42 and shows "42". -/
theorem Calculator.calculate_success_witness :
    JS.Float64.ops.Lawful
      ∧ Calculator.sixTimesSeven.operator = some "*"
      ∧ Calculator.isOperator "*" = true
      ∧ JS.Float64.ops.isNaN (JS.Float64.ops.parseFloat Calculator.sixTimesSeven.previousValue)
        = false
      ∧ JS.Float64.ops.isNaN (JS.Float64.ops.parseFloat Calculator.sixTimesSeven.currentValue)
        = false
      ∧ (Calculator.calculate JS.Float64.ops Calculator.sixTimesSeven).lastResult
        = some (JS.Float64.parseFloat "42")
      ∧ (Calculator.calculate JS.Float64.ops Calculator.sixTimesSeven).currentValue = "42"
      ∧ (Calculator.calculate JS.Float64.ops Calculator.sixTimesSeven).displayText = "42"
      ∧ (Calculator.calculate JS.Float64.ops Calculator.sixTimesSeven).operator = none
      ∧ (Calculator.calculate JS.Float64.ops Calculator.sixTimesSeven).previousValue = ""
      ∧ (Calculator.calculate JS.Float64.ops Calculator.sixTimesSeven).shouldResetDisplay = true
      ∧ (Calculator.calculate JS.Float64.ops Calculator.sixTimesSeven).previousOperationText
        = "" :=
  ⟨JS.Float64.ops_lawful, rfl, by decide, by decide, by decide,
    (Calculator.calculate_success JS.Float64.ops JS.Float64.ops_lawful Calculator.sixTimesSeven
      "*" rfl (by decide) (by decide) (by decide) (by decide)).1.trans (by decide),
    (Calculator.calculate_success JS.Float64.ops JS.Float64.ops_lawful Calculator.sixTimesSeven
      "*" rfl (by decide) (by decide) (by decide) (by decide)).2.1.trans (by decide),
    (Calculator.calculate_success JS.Float64.ops JS.Float64.ops_lawful Calculator.sixTimesSeven
      "*" rfl (by decide) (by decide) (by decide) (by decide)).2.2.1.trans (by decide),
    (Calculator.calculate_success JS.Float64.ops JS.Float64.ops_lawful Calculator.sixTimesSeven
      "*" rfl (by decide) (by decide) (by decide) (by decide)).2.2.2.1,
    (Calculator.calculate_success JS.Float64.ops JS.Float64.ops_lawful Calculator.sixTimesSeven
      "*" rfl (by decide) (by decide) (by decide) (by decide)).2.2.2.2.1,
    (Calculator.calculate_success JS.Float64.ops JS.Float64.ops_lawful Calculator.sixTimesSeven
      "*" rfl (by decide) (by decide) (by decide) (by decide)).2.2.2.2.2.1,
    (Calculator.calculate_success JS.Float64.ops JS.Float64.ops_lawful Calculator.sixTimesSeven
      "*" rfl (by decide) (by decide) (by decide) (by decide)).2.2.2.2.2.2.2.1⟩

/-! ### Gallery: filtering -/

/-- C8: clicking the filter button with value `tag` makes `filteredItems` the items of
`galleryItems` whose category equals `tag`, in their original order, and all of
`galleryItems` (so as many) when `tag` is "all"; a tag other than "all" that no item carries
gives the empty list.  The result is determined by `galleryItems` and `tag` alone. -/
theorem Gallery.filterClick_filteredItems (g : Gallery) (tag : Option String) :
    (tag = some "all" → (Gallery.filterClick g tag).filteredItems = g.galleryItems
        ∧ (Gallery.filterClick g tag).filteredItems.length = g.galleryItems.length)
      ∧ (tag ≠ some "all" → (Gallery.filterClick g tag).filteredItems
        = g.galleryItems.filter (fun item => decide (item.category = tag)))
      ∧ List.Sublist (Gallery.filterClick g tag).filteredItems g.galleryItems
      ∧ (tag ≠ some "all" → (∀ item ∈ g.galleryItems, item.category ≠ tag) →
        (Gallery.filterClick g tag).filteredItems = [])
      ∧ (∀ g1 : Gallery, g1.galleryItems = g.galleryItems →
        (Gallery.filterClick g1 tag).filteredItems = (Gallery.filterClick g tag).filteredItems)
      ∧ (Gallery.filterClick g tag).galleryItems = g.galleryItems := by
  have hall : tag = some "all" → (Gallery.filterClick g tag).filteredItems = g.galleryItems := by
    rintro rfl
    simp [Gallery.filterClick, Gallery.matchesFilter]
  have hcat : tag ≠ some "all" → (Gallery.filterClick g tag).filteredItems
      = g.galleryItems.filter (fun item => decide (item.category = tag)) := by
    intro h
    simp only [Gallery.filterClick]
    apply List.filter_congr
    intro item _
    simp only [Gallery.matchesFilter, Bool.or_eq_true, decide_eq_true_eq, h, false_or]
    by_cases hc : item.category = tag
    · simp [hc]
    · have hc1 : ¬ tag = item.category := fun h1 => hc h1.symm
      simp [hc, hc1]
  refine ⟨fun h => ⟨hall h, by rw [hall h]⟩, hcat, List.filter_sublist _, ?_, ?_, rfl⟩
  · intro h hnone
    rw [hcat h, List.filter_eq_nil_iff]
    intro item hi
    simpa using hnone item hi
  · intro g1 h1
    simp [Gallery.filterClick, h1]

/-- Witness for C8: of three items tagged nature, city, nature the filter "nature" keeps the
first and the third, "all" keeps the three, and "people" keeps none. -/
theorem Gallery.filterClick_filteredItems_witness :
    (Gallery.filterClick Gallery.threeItems (some "all")).filteredItems
        = Gallery.threeItems.galleryItems
      ∧ (Gallery.filterClick Gallery.threeItems (some "nature")).filteredItems
        = Gallery.threeItems.galleryItems.filter
          (fun item => decide (item.category = some "nature"))
      ∧ (Gallery.filterClick Gallery.threeItems (some "nature")).filteredItems
        = [⟨0, some "nature", "a.jpg", "A"⟩, ⟨2, some "nature", "c.jpg", "C"⟩]
      ∧ (Gallery.filterClick Gallery.threeItems (some "people")).filteredItems = [] :=
  ⟨((Gallery.filterClick_filteredItems Gallery.threeItems (some "all")).1 rfl).1,
    (Gallery.filterClick_filteredItems Gallery.threeItems (some "nature")).2.1 (by decide),
    by decide,
    (Gallery.filterClick_filteredItems Gallery.threeItems (some "people")).2.2.2.1 (by decide)
      (by decide)⟩

/-! ### Gallery: lightbox navigation -/

theorem Gallery.updateLightboxImage_currentIndex (g : Gallery) :
    (Gallery.updateLightboxImage g).1.currentIndex = g.currentIndex
      ∧ (Gallery.updateLightboxImage g).1.filteredItems = g.filteredItems := by
  unfold Gallery.updateLightboxImage
  split <;> exact ⟨rfl, rfl⟩

theorem Gallery.updateLightboxImage_normal (g : Gallery) (h0 : 0 ≤ g.currentIndex)
    (h1 : g.currentIndex < g.filteredItems.length) :
    (Gallery.updateLightboxImage g).2 = Completion.normal := by
  have hlt : g.currentIndex.toNat < g.filteredItems.length := by omega
  have hn : ¬ g.currentIndex < 0 := by omega
  unfold Gallery.updateLightboxImage Gallery.currentItem
  rw [if_neg hn, List.get?_eq_get hlt]

theorem Gallery.updateLightboxImage_typeError (g : Gallery) (h : g.filteredItems = []) :
    Gallery.updateLightboxImage g = (g, Completion.typeError) := by
  unfold Gallery.updateLightboxImage Gallery.currentItem
  rw [h]
  split_ifs <;> rfl

/-- C9: with the cursor inside a list of `n` visible items (so `n` is not zero),
`navigateLightbox('next')` sets it to `(cursor + 1) mod n` and `navigateLightbox('prev')` to
`(cursor - 1 + n) mod n`, and both render without error; with five items, next from 4 gives 0
and prev from 0 gives 4. -/
theorem Gallery.navigateLightbox_wraps (g : Gallery) (h0 : 0 ≤ g.currentIndex)
    (h1 : g.currentIndex < g.filteredItems.length) :
    (Gallery.navigateLightbox g "next").1.currentIndex
        = (g.currentIndex + 1) % g.filteredItems.length
      ∧ (Gallery.navigateLightbox g "prev").1.currentIndex
        = (g.currentIndex - 1 + g.filteredItems.length) % g.filteredItems.length
      ∧ (Gallery.navigateLightbox g "next").2 = Completion.normal
      ∧ (Gallery.navigateLightbox g "prev").2 = Completion.normal
      ∧ (g.filteredItems.length = 5 → g.currentIndex = 4 →
        (Gallery.navigateLightbox g "next").1.currentIndex = 0)
      ∧ (g.filteredItems.length = 5 → g.currentIndex = 0 →
        (Gallery.navigateLightbox g "prev").1.currentIndex = 4) := by
  have hnext : (Gallery.navigateLightbox g "next").1.currentIndex
      = (g.currentIndex + 1) % g.filteredItems.length := by
    simp only [Gallery.navigateLightbox, if_true]
    rw [(Gallery.updateLightboxImage_currentIndex _).1]
    show (if g.currentIndex + 1 ≥ (g.filteredItems.length : Int) then 0 else g.currentIndex + 1)
      = (g.currentIndex + 1) % g.filteredItems.length
    split_ifs with h
    · have : g.currentIndex + 1 = g.filteredItems.length := by omega
      rw [this, Int.emod_self]
    · rw [Int.emod_eq_of_lt (by omega) (by omega)]
  have hprev : (Gallery.navigateLightbox g "prev").1.currentIndex
      = (g.currentIndex - 1 + g.filteredItems.length) % g.filteredItems.length := by
    simp only [Gallery.navigateLightbox, show ("prev" : String) ≠ "next" by decide, if_false]
    rw [(Gallery.updateLightboxImage_currentIndex _).1]
    show (if g.currentIndex - 1 < 0 then (g.filteredItems.length : Int) - 1
        else g.currentIndex - 1)
      = (g.currentIndex - 1 + g.filteredItems.length) % g.filteredItems.length
    split_ifs with h
    · have : g.currentIndex = 0 := by omega
      rw [this, Int.emod_eq_of_lt (by omega) (by omega)]
      omega
    · rw [Int.add_emod_self, Int.emod_eq_of_lt (by omega) (by omega)]
  refine ⟨hnext, hprev, ?_, ?_, ?_, ?_⟩
  · simp only [Gallery.navigateLightbox, if_true]
    apply Gallery.updateLightboxImage_normal
    · show 0 ≤ (if g.currentIndex + 1 ≥ (g.filteredItems.length : Int) then 0
        else g.currentIndex + 1)
      split_ifs <;> omega
    · show (if g.currentIndex + 1 ≥ (g.filteredItems.length : Int) then 0
        else g.currentIndex + 1) < (g.filteredItems.length : Int)
      split_ifs <;> omega
  · simp only [Gallery.navigateLightbox, show ("prev" : String) ≠ "next" by decide, if_false]
    apply Gallery.updateLightboxImage_normal
    · show 0 ≤ (if g.currentIndex - 1 < 0 then (g.filteredItems.length : Int) - 1
        else g.currentIndex - 1)
      split_ifs <;> omega
    · show (if g.currentIndex - 1 < 0 then (g.filteredItems.length : Int) - 1
        else g.currentIndex - 1) < (g.filteredItems.length : Int)
      split_ifs <;> omega
  · intro h5 h4
    rw [hnext, h5, h4]
    rfl
  · intro h5 h4
    rw [hprev, h5, h4]
    rfl

/-- Witness for C9: five visible items, next from index 4 and prev from index 0. -/
theorem Gallery.navigateLightbox_wraps_witness :
    (0 ≤ (Gallery.fiveItemsAt 4).currentIndex
      ∧ (Gallery.fiveItemsAt 4).currentIndex < (Gallery.fiveItemsAt 4).filteredItems.length
      ∧ (Gallery.navigateLightbox (Gallery.fiveItemsAt 4) "next").1.currentIndex = 0)
    ∧ (0 ≤ (Gallery.fiveItemsAt 0).currentIndex
      ∧ (Gallery.fiveItemsAt 0).currentIndex < (Gallery.fiveItemsAt 0).filteredItems.length
      ∧ (Gallery.navigateLightbox (Gallery.fiveItemsAt 0) "prev").1.currentIndex = 4) :=
  ⟨⟨by decide, by decide,
      (Gallery.navigateLightbox_wraps (Gallery.fiveItemsAt 4) (by decide) (by decide)).2.2.2.2.1
        (by decide) (by decide)⟩,
    ⟨by decide, by decide,
      (Gallery.navigateLightbox_wraps (Gallery.fiveItemsAt 0) (by decide) (by decide)).2.2.2.2.2
        (by decide) (by decide)⟩⟩

/-- With no visible item every call of `navigateLightbox` ends in a `TypeError`, after
`next` has set the cursor to 0 (from -1 upwards) and `prev` has set it to -1 (from 0
downwards). -/
theorem Gallery.navigateLightbox_empty (g : Gallery) (h : g.filteredItems = [])
    (direction : String) :
    (Gallery.navigateLightbox g direction).2 = Completion.typeError
      ∧ (-1 ≤ g.currentIndex → (Gallery.navigateLightbox g "next").1.currentIndex = 0)
      ∧ (g.currentIndex ≤ 0 → (Gallery.navigateLightbox g "prev").1.currentIndex = -1) := by
  refine ⟨?_, ?_, ?_⟩
  · unfold Gallery.navigateLightbox
    have key : ∀ i : Int, (Gallery.updateLightboxImage { g with currentIndex := i }).2
        = Completion.typeError :=
      fun i => congrArg Prod.snd
        (Gallery.updateLightboxImage_typeError { g with currentIndex := i } h)
    split_ifs
    · exact key _
    · exact key _
  · intro hc
    simp only [Gallery.navigateLightbox, if_true]
    rw [(Gallery.updateLightboxImage_currentIndex _).1]
    show (if g.currentIndex + 1 ≥ (g.filteredItems.length : Int) then 0 else g.currentIndex + 1)
      = 0
    rw [h]
    simp only [List.length_nil, Int.Nat.cast_ofNat_Int]
    split_ifs <;> omega
  · intro hc
    simp only [Gallery.navigateLightbox, show ("prev" : String) ≠ "next" by decide, if_false]
    rw [(Gallery.updateLightboxImage_currentIndex _).1]
    show (if g.currentIndex - 1 < 0 then (g.filteredItems.length : Int) - 1
        else g.currentIndex - 1) = -1
    rw [h]
    simp only [List.length_nil, Int.Nat.cast_ofNat_Int]
    split_ifs <;> omega

/-- C10 (the code at the failing input): on a page with two nature items, open the first,
click the filter "city" (no item matches, the lightbox stays open) and press ArrowLeft: the
cursor goes from 0 to -1 and a `TypeError` escapes the handler; ArrowRight throws as well. -/
theorem Gallery.navigateLightbox_empty_throws :
    Gallery.emptyFiltered.filteredItems = []
      ∧ Gallery.emptyFiltered.lightboxActive = true
      ∧ Gallery.emptyFiltered.currentIndex = 0
      ∧ (Gallery.keydown Gallery.emptyFiltered "ArrowLeft").1.currentIndex = -1
      ∧ (Gallery.keydown Gallery.emptyFiltered "ArrowLeft").2 = Completion.typeError
      ∧ (Gallery.navigateLightbox Gallery.emptyFiltered "prev").1.currentIndex = -1
      ∧ (Gallery.navigateLightbox Gallery.emptyFiltered "prev").2 = Completion.typeError
      ∧ (Gallery.navigateLightbox Gallery.emptyFiltered "next").2 = Completion.typeError := by
  decide

/-! ### Calculator: `delete`, `calculate` without a pending operation, `clear` -/

/-- C14: `delete` leaves the whole state unchanged when the display is about to be reset;
otherwise the current entry loses its last character, or becomes "0" if that leaves the empty
string or "-", and `previousValue`, `operator`, `shouldResetDisplay` and `lastResult` keep
their values. -/
theorem Calculator.delete_spec {ν : Type} (s : Calculator ν) :
    (s.shouldResetDisplay = true → Calculator.delete s = s)
      ∧ (s.shouldResetDisplay = false →
        (Calculator.delete s).currentValue
            = (if String.mk s.currentValue.data.dropLast = ""
                ∨ String.mk s.currentValue.data.dropLast = "-" then "0"
              else String.mk s.currentValue.data.dropLast)
          ∧ (Calculator.delete s).previousValue = s.previousValue
          ∧ (Calculator.delete s).operator = s.operator
          ∧ (Calculator.delete s).shouldResetDisplay = s.shouldResetDisplay
          ∧ (Calculator.delete s).lastResult = s.lastResult
          ∧ (Calculator.delete s).previousOperationText = s.previousOperationText) := by
  refine ⟨fun h => ?_, fun h => ?_⟩
  · simp [Calculator.delete, h]
  · simp [Calculator.delete, h, Calculator.updateDisplay]

/-- Witness for C14: backspace on "12.5" gives "12.", on "7" gives "0", on "-5" gives "0",
and does nothing right after an operator was chosen. -/
theorem Calculator.delete_spec_witness :
    (Calculator.delete Calculator.sixTimesSeven).currentValue = "0"
      ∧ (Calculator.delete Calculator.sixTimesSeven).previousValue = "6"
      ∧ (Calculator.delete Calculator.sixTimesSeven).operator = some "*"
      ∧ (Calculator.delete { Calculator.sixTimesSeven with currentValue := "12.5" }).currentValue
        = "12."
      ∧ (Calculator.delete { Calculator.sixTimesSeven with currentValue := "-5" }).currentValue
        = "0"
      ∧ Calculator.delete { Calculator.sixTimesSeven with shouldResetDisplay := true }
        = { Calculator.sixTimesSeven with shouldResetDisplay := true } :=
  ⟨((Calculator.delete_spec Calculator.sixTimesSeven).2 rfl).1.trans (by decide),
    ((Calculator.delete_spec Calculator.sixTimesSeven).2 rfl).2.1,
    ((Calculator.delete_spec Calculator.sixTimesSeven).2 rfl).2.2.1,
    ((Calculator.delete_spec { Calculator.sixTimesSeven with currentValue := "12.5" }).2 rfl).1.trans
      (by decide),
    ((Calculator.delete_spec { Calculator.sixTimesSeven with currentValue := "-5" }).2 rfl).1.trans
      (by decide),
    (Calculator.delete_spec { Calculator.sixTimesSeven with shouldResetDisplay := true }).1 rfl⟩

/-- C15: with no pending operator, or with an empty pending operand, `calculate` returns the
state unchanged, so calculating twice is the same as calculating once. -/
theorem Calculator.calculate_nothing_pending {ν : Type} (J : JS.NumberOps ν) (s : Calculator ν)
    (h : s.operator = none ∨ s.previousValue = "") :
    Calculator.calculate J s = s
      ∧ Calculator.calculate J (Calculator.calculate J s) = Calculator.calculate J s := by
  have h1 : Calculator.calculate J s = s := by
    unfold Calculator.calculate
    split
    · rfl
    · next op hop =>
      rcases h with h | h
      · rw [hop] at h
        exact Option.noConfusion h
      · rw [if_pos h]
  exact ⟨h1, by rw [h1, h1]⟩

/-- Witness for C15: `calculate` on the initial state, and on a state with an operator but an
empty operand, on binary64. -/
theorem Calculator.calculate_nothing_pending_witness :
    ((Calculator.new "" : Calculator JS.Float64).operator = none
      ∧ Calculator.calculate JS.Float64.ops (Calculator.new "") = Calculator.new "")
    ∧ (({ Calculator.sixTimesSeven with previousValue := "" } : Calculator JS.Float64).previousValue
        = ""
      ∧ Calculator.calculate JS.Float64.ops { Calculator.sixTimesSeven with previousValue := "" }
        = { Calculator.sixTimesSeven with previousValue := "" }) :=
  ⟨⟨rfl, (Calculator.calculate_nothing_pending JS.Float64.ops (Calculator.new "")
      (Or.inl rfl)).1⟩,
    ⟨rfl, (Calculator.calculate_nothing_pending JS.Float64.ops
      { Calculator.sixTimesSeven with previousValue := "" } (Or.inr rfl)).1⟩⟩

/-- C16: `clear` sets the five state fields to the values the constructor gives them
(`currentValue` "0", `previousValue` empty, `operator` null, `shouldResetDisplay` false,
`lastResult` null), shows "0" without the error class and empties the indicator; the result
is the initial state of a page with an empty indicator, up to the error timers still
pending.  Clearing twice is clearing once. -/
theorem Calculator.clear_spec {ν : Type} (s : Calculator ν) (previousOperation : String) :
    (Calculator.clear s).currentValue = "0"
      ∧ (Calculator.clear s).previousValue = ""
      ∧ (Calculator.clear s).operator = none
      ∧ (Calculator.clear s).shouldResetDisplay = false
      ∧ (Calculator.clear s).lastResult = none
      ∧ (Calculator.clear s).currentValue
        = (Calculator.new previousOperation : Calculator ν).currentValue
      ∧ (Calculator.clear s).previousValue
        = (Calculator.new previousOperation : Calculator ν).previousValue
      ∧ (Calculator.clear s).operator = (Calculator.new previousOperation : Calculator ν).operator
      ∧ (Calculator.clear s).shouldResetDisplay
        = (Calculator.new previousOperation : Calculator ν).shouldResetDisplay
      ∧ (Calculator.clear s).lastResult
        = (Calculator.new previousOperation : Calculator ν).lastResult
      ∧ Calculator.clear s = { (Calculator.new "" : Calculator ν) with timers := s.timers }
      ∧ Calculator.clear (Calculator.clear s) = Calculator.clear s := by
  have h : Calculator.clear s = { (Calculator.new "" : Calculator ν) with timers := s.timers } := by
    simp [Calculator.clear, Calculator.new, Calculator.updateDisplay,
      Calculator.updatePreviousOperation]
  have h2 : Calculator.clear (Calculator.clear s) = Calculator.clear s := by
    simp [Calculator.clear, Calculator.updateDisplay, Calculator.updatePreviousOperation]
  rw [h2, h]
  simp [Calculator.new, Calculator.updateDisplay]

/-- C18: in every state reached from the initial state by number, operator and action buttons
(and error timers), `currentValue` is not the empty string; in particular the operand that
`setOperator` copies from it is not empty. -/
theorem Calculator.currentValue_ne_empty {ν : Type} (J : JS.NumberOps ν) (hJ : J.Lawful)
    (previousOperation : String) (events : List Calculator.Event)
    (he : ∀ e ∈ events, Calculator.Event.wellFormed e = true) :
    (Calculator.run J (Calculator.new previousOperation) events).currentValue ≠ ""
      ∧ ∀ op, (Calculator.setOperator J
          (Calculator.run J (Calculator.new previousOperation) events) op).previousValue ≠ "" := by
  have h := Calculator.run_consistent J hJ events _ he
    (Calculator.new_consistent previousOperation)
  refine ⟨h.2, fun op => ?_⟩
  have h2 := Calculator.setOperator_consistent J hJ _ op h
  have h3 : (Calculator.setOperator J
      (Calculator.run J (Calculator.new previousOperation) events) op).operator ≠ none := by
    unfold Calculator.setOperator
    rw [(Calculator.updatePreviousOperation_fields _).2.2.1]
    simp
  exact fun hc => h3 (h2.1.mpr hc)

/-- Witness for C18: after `1 2 ⌫ ⌫ ⌫ + =` on binary64 the current entry is not empty. -/
theorem Calculator.currentValue_ne_empty_witness :
    JS.Float64.ops.Lawful
      ∧ (∀ e ∈ Calculator.backspaceEvents, Calculator.Event.wellFormed e = true)
      ∧ (Calculator.run JS.Float64.ops (Calculator.new "") Calculator.backspaceEvents).currentValue
        ≠ "" :=
  ⟨JS.Float64.ops_lawful, by decide,
    (Calculator.currentValue_ne_empty JS.Float64.ops JS.Float64.ops_lawful ""
      Calculator.backspaceEvents (by decide)).1⟩

/-! ### Calculator: at most one decimal point -/

theorem JS.Float64.digitChar_ne_point : ∀ n, n < 10 → Nat.digitChar n ≠ '.' := by
  decide

theorem JS.Float64.toDigitsCore_no_point (fuel n : Nat) (ds : List Char) (h : '.' ∉ ds) :
    '.' ∉ Nat.toDigitsCore 10 fuel n ds := by
  induction fuel generalizing n ds with
  | zero => simpa [Nat.toDigitsCore] using h
  | succ f ih =>
    have hcons : '.' ∉ Nat.digitChar (n % 10) :: ds := by
      intro hm
      rcases List.mem_cons.mp hm with h1 | h1
      · exact JS.Float64.digitChar_ne_point _ (Nat.mod_lt n (by decide)) h1.symm
      · exact h h1
    simp only [Nat.toDigitsCore]
    split
    · exact hcons
    · exact ih _ _ hcons

theorem JS.Float64.toDigits_no_point (n : Nat) : '.' ∉ Nat.toDigits 10 n :=
  JS.Float64.toDigitsCore_no_point (n + 1) n [] (List.not_mem_nil _)

theorem JS.Float64.formatPositive_count_point (m : Nat) (e : Int) :
    (JS.Float64.formatPositive m e).count '.' ≤ 1 := by
  have hd : ∀ n, List.count '.' (Nat.toDigits 10 n) = 0 :=
    fun n => List.count_eq_zero.mpr (JS.Float64.toDigits_no_point n)
  have htake : ∀ n k, List.count '.' ((Nat.toDigits 10 n).take k) = 0 :=
    fun n k => List.count_eq_zero.mpr
      (fun hm => JS.Float64.toDigits_no_point n (List.mem_of_mem_take hm))
  have hdrop : ∀ n k, List.count '.' ((Nat.toDigits 10 n).drop k) = 0 :=
    fun n k => List.count_eq_zero.mpr
      (fun hm => JS.Float64.toDigits_no_point n (List.mem_of_mem_drop hm))
  have htail : ∀ n, List.count '.' (Nat.toDigits 10 n).tail = 0 :=
    fun n => List.count_eq_zero.mpr
      (fun hm => JS.Float64.toDigits_no_point n (List.mem_of_mem_tail hm))
  have hrep : ∀ k, List.count '.' (List.replicate k '0') = 0 :=
    fun k => List.count_eq_zero.mpr (fun hm => absurd (List.eq_of_mem_replicate hm) (by decide))
  unfold JS.Float64.formatPositive
  simp only
  split_ifs <;> simp [List.count_append, List.count_cons, hd, htake, hdrop, htail, hrep]

/-- On binary64, `toString` prints at most one decimal point. -/
theorem JS.Float64.ops_printsOnePoint : JS.Float64.ops.PrintsOnePoint := by
  intro x
  show (JS.Float64.toString x).data.count '.' ≤ 1
  cases x with
  | nan => decide
  | inf s => cases s <;> decide
  | fin s m e =>
    simp only [JS.Float64.toString]
    split_ifs
    · decide
    · simpa [List.count_cons] using JS.Float64.formatPositive_count_point m e
    · exact JS.Float64.formatPositive_count_point m e

theorem Calculator.appendNumber_point_cases {ν : Type} (s : Calculator ν) :
    (Calculator.appendNumber s ".").shouldResetDisplay = false
      ∧ '.' ∈ (Calculator.appendNumber s ".").currentValue.data
      ∧ (s.OnePoint → (Calculator.appendNumber s ".").currentValue.data.count '.' = 1) := by
  have body : ∀ t : Calculator ν, t.shouldResetDisplay = false →
      (Calculator.appendNumber t ".").shouldResetDisplay = false
        ∧ '.' ∈ (Calculator.appendNumber t ".").currentValue.data
        ∧ (t.OnePoint → (Calculator.appendNumber t ".").currentValue.data.count '.' = 1) := by
    intro t ht
    by_cases hm : '.' ∈ t.currentValue.data
    · have he : Calculator.appendNumber t "." = t := by
        simp [Calculator.appendNumber, ht, hm]
      rw [he]
      refine ⟨ht, hm, fun h1 => ?_⟩
      have := List.count_pos_iff.mpr hm
      unfold Calculator.OnePoint at h1
      omega
    · have h0 : List.count '.' t.currentValue.data = 0 := List.count_eq_zero.mpr hm
      by_cases hz : t.currentValue = "0" ∨ t.currentValue = ""
      · have he : Calculator.appendNumber t "."
            = Calculator.updateDisplay { t with currentValue := "0." } := by
          simp [Calculator.appendNumber, ht, hm, hz]
        rw [he]
        refine ⟨ht, ?_, fun _ => ?_⟩
        · show '.' ∈ ("0." : String).data
          decide
        · show List.count '.' ("0." : String).data = 1
          decide
      · have he : Calculator.appendNumber t "."
            = Calculator.updateDisplay { t with currentValue := t.currentValue ++ "." } := by
          rw [not_or] at hz
          simp [Calculator.appendNumber, ht, hm, hz.1, hz.2]
        rw [he]
        refine ⟨ht, ?_, fun _ => ?_⟩
        · show '.' ∈ (t.currentValue ++ ".").data
          simp
        · show List.count '.' (t.currentValue ++ ".").data = 1
          simp [List.count_append, h0]
  by_cases hr : s.shouldResetDisplay = true
  · have he : Calculator.appendNumber s "."
        = Calculator.appendNumber { s with currentValue := "0", shouldResetDisplay := false } "." := by
      simp [Calculator.appendNumber, hr]
    rw [he]
    obtain ⟨b1, b2, b3⟩ := body { s with currentValue := "0", shouldResetDisplay := false } rfl
    exact ⟨b1, b2, fun _ => b3 (show List.count '.' ("0" : String).data ≤ 1 by decide)⟩
  · exact body s (by simpa using hr)

theorem Calculator.appendNumber_onePoint {ν : Type} (s : Calculator ν) (number : String)
    (ht : Calculator.isToken number = true) (h : s.OnePoint) :
    (Calculator.appendNumber s number).OnePoint := by
  rcases Calculator.isToken_cases number ht with hp | ⟨hnp, -, -, hno⟩
  · subst hp
    exact le_of_eq ((Calculator.appendNumber_point_cases s).2.2 h)
  · have hn0 : List.count '.' number.data = 0 := List.count_eq_zero.mpr hno
    have body : ∀ t : Calculator ν, t.OnePoint →
        (if t.currentValue = "0" then
            Calculator.updateDisplay { t with currentValue := number }
          else if t.currentValue.length < 12 then
            Calculator.updateDisplay { t with currentValue := t.currentValue ++ number }
          else Calculator.updateDisplay t).OnePoint := by
      intro t h1
      unfold Calculator.OnePoint at h1 ⊢
      split_ifs
      · show List.count '.' number.data ≤ 1
        omega
      · show List.count '.' (t.currentValue ++ number).data ≤ 1
        rw [String.data_append, List.count_append]
        omega
      · exact h1
    by_cases hr : s.shouldResetDisplay = true
    · simp only [Calculator.appendNumber, hr, if_true, hnp, if_false]
      exact body { s with currentValue := "0", shouldResetDisplay := false }
        (show List.count '.' ("0" : String).data ≤ 1 by decide)
    · simp only [Calculator.appendNumber, hr, hnp, if_false]
      exact body _ h

theorem Calculator.calculate_onePoint {ν : Type} (J : JS.NumberOps ν) (hp : J.PrintsOnePoint)
    (s : Calculator ν) (h : s.OnePoint) : (Calculator.calculate J s).OnePoint := by
  have hf : ∀ r, (Calculator.finish J s r).OnePoint := by
    intro r
    unfold Calculator.OnePoint
    rw [(Calculator.finish_fields J s r).2.1]
    exact hp _
  unfold Calculator.calculate
  split
  · exact h
  · dsimp only
    split_ifs
    all_goals first
      | exact h
      | exact hf _

theorem Calculator.step_onePoint {ν : Type} (J : JS.NumberOps ν) (hp : J.PrintsOnePoint)
    (s : Calculator ν) (e : Calculator.Event) (he : e.wellFormed = true) (h : s.OnePoint) :
    (Calculator.step J s e).OnePoint := by
  have hclear : ∀ t : Calculator ν, (Calculator.clear t).OnePoint := by
    intro t
    show List.count '.' ("0" : String).data ≤ 1
    decide
  cases e with
  | number n => exact Calculator.appendNumber_onePoint s n he h
  | operator op =>
    simp only [Calculator.step, Calculator.setOperator]
    unfold Calculator.OnePoint
    rw [(Calculator.updatePreviousOperation_fields _).1]
    split_ifs
    · exact Calculator.calculate_onePoint J hp s h
    · exact h
  | action a =>
    simp only [Calculator.step, Calculator.handleAction]
    split_ifs
    · exact hclear s
    · unfold Calculator.delete
      split_ifs
      · exact h
      · unfold Calculator.OnePoint
        simp only [Calculator.updateDisplay]
        split_ifs
        · decide
        · exact le_trans (List.Sublist.count_le (List.dropLast_sublist _) _) h
    · exact Calculator.calculate_onePoint J hp s h
    · exact h
  | timeout =>
    simp only [Calculator.step, Calculator.timeout]
    split_ifs
    · exact h
    · exact hclear _

theorem Calculator.run_onePoint {ν : Type} (J : JS.NumberOps ν) (hp : J.PrintsOnePoint)
    (events : List Calculator.Event) (s : Calculator ν)
    (he : ∀ e ∈ events, Calculator.Event.wellFormed e = true) (h : s.OnePoint) :
    (Calculator.run J s events).OnePoint := by
  induction events generalizing s with
  | nil => exact h
  | cons e rest ih =>
    exact ih (Calculator.step J s e) (fun x hx => he x (List.mem_cons_of_mem _ hx))
      (Calculator.step_onePoint J hp s e (he e (List.mem_cons_self _ _)) h)

/-- C13: in every state reached from the initial state by number, operator and action buttons
(and error timers) the current entry contains at most one decimal point; typing the decimal
point twice in a row leaves exactly one, the second press changing nothing. -/
theorem Calculator.currentValue_one_point {ν : Type} (J : JS.NumberOps ν)
    (hp : J.PrintsOnePoint) (previousOperation : String) (events : List Calculator.Event)
    (he : ∀ e ∈ events, Calculator.Event.wellFormed e = true) :
    (Calculator.run J (Calculator.new previousOperation) events).currentValue.data.count '.' ≤ 1
      ∧ Calculator.appendNumber (Calculator.appendNumber
          (Calculator.run J (Calculator.new previousOperation) events) ".") "."
        = Calculator.appendNumber (Calculator.run J (Calculator.new previousOperation) events) "."
      ∧ (Calculator.appendNumber (Calculator.appendNumber
          (Calculator.run J (Calculator.new previousOperation) events) ".")
          ".").currentValue.data.count '.' = 1 := by
  have h : (Calculator.run J (Calculator.new previousOperation) events).OnePoint :=
    Calculator.run_onePoint J hp events _ he
      (show List.count '.' ("0" : String).data ≤ 1 by decide)
  obtain ⟨c1, c2, c3⟩ := Calculator.appendNumber_point_cases
    (Calculator.run J (Calculator.new previousOperation) events)
  have hno : Calculator.appendNumber (Calculator.appendNumber
        (Calculator.run J (Calculator.new previousOperation) events) ".") "."
      = Calculator.appendNumber (Calculator.run J (Calculator.new previousOperation) events) "." := by
    generalize Calculator.appendNumber
      (Calculator.run J (Calculator.new previousOperation) events) "." = t at c1 c2
    simp [Calculator.appendNumber, c1, c2]
  exact ⟨h, hno, by rw [hno]; exact c3 h⟩

/-- Witness for C13: after `1 . 5 + 2 . .` on binary64 the entry is "2." with one point. -/
theorem Calculator.currentValue_one_point_witness :
    JS.Float64.ops.PrintsOnePoint
      ∧ (∀ e ∈ Calculator.pointEvents, Calculator.Event.wellFormed e = true)
      ∧ (Calculator.run JS.Float64.ops (Calculator.new "")
          Calculator.pointEvents).currentValue.data.count '.' ≤ 1
      ∧ (Calculator.run JS.Float64.ops (Calculator.new "") Calculator.pointEvents).currentValue
        = "2." :=
  ⟨JS.Float64.ops_printsOnePoint, by decide,
    (Calculator.currentValue_one_point JS.Float64.ops JS.Float64.ops_printsOnePoint ""
      Calculator.pointEvents (by decide)).1, by decide⟩

/-! ### Calculator: choosing an operator on a division by zero -/

/-- A division by a zero entry whose operand parses ends in `showError`. -/
theorem Calculator.calculate_eq_showError {ν : Type} (J : JS.NumberOps ν) (hJ : J.Lawful)
    (s : Calculator ν) (hop : s.operator = some "/")
    (ha : J.isNaN (J.parseFloat s.previousValue) = false)
    (hb : J.isNaN (J.parseFloat s.currentValue) = false)
    (hz : J.isZero (J.parseFloat s.currentValue) = true) :
    Calculator.calculate J s = Calculator.showError s "Cannot divide by zero" := by
  have hne : s.previousValue ≠ "" := by
    intro h
    rw [h, hJ.1] at ha
    exact Bool.noConfusion ha
  simp [Calculator.calculate, hop, hne, ha, hb, hz]

/-- C19 (as amended): when `/` is pending on a completed entry, the pending operand parses to
a number and the current entry parses to zero, `setOperator` shows "Cannot divide by zero"
(scheduling the `clear`) and still overwrites the pending operation: the operand becomes the
zero entry, the operator the new one, and the reset flag is set. -/
theorem Calculator.setOperator_divide_by_zero {ν : Type} (J : JS.NumberOps ν) (hJ : J.Lawful)
    (s : Calculator ν) (op : String) (h4 : Calculator.isOperator op = true)
    (hop : s.operator = some "/") (hr : s.shouldResetDisplay = false)
    (ha : J.isNaN (J.parseFloat s.previousValue) = false)
    (hb : J.isNaN (J.parseFloat s.currentValue) = false)
    (hz : J.isZero (J.parseFloat s.currentValue) = true) :
    (Calculator.setOperator J s op).displayText = "Cannot divide by zero"
      ∧ (Calculator.setOperator J s op).displayError = true
      ∧ (Calculator.setOperator J s op).timers = s.timers + 1
      ∧ (Calculator.setOperator J s op).previousValue = s.currentValue
      ∧ (Calculator.setOperator J s op).operator = some op
      ∧ (Calculator.setOperator J s op).shouldResetDisplay = true
      ∧ (Calculator.setOperator J s op).currentValue = s.currentValue
      ∧ (Calculator.setOperator J s op).lastResult = s.lastResult := by
  have hne : op ≠ "" := by
    rintro rfl
    exact absurd h4 (by decide)
  have hc : Calculator.calculate J s
      = { s with
          displayText := "Cannot divide by zero"
          displayError := true
          timers := s.timers + 1 } :=
    Calculator.calculate_eq_showError J hJ s hop ha hb hz
  have hs : Calculator.setOperator J s op = Calculator.updatePreviousOperation
      { s with
        displayText := "Cannot divide by zero"
        displayError := true
        timers := s.timers + 1
        previousValue := s.currentValue
        operator := some op
        shouldResetDisplay := true } := by
    unfold Calculator.setOperator
    rw [if_pos ⟨by simp [hop], hr⟩, hc]
  rw [hs]
  by_cases hcv : s.currentValue = "" <;>
    simp [Calculator.updatePreviousOperation, hne, hcv]

/-- Witness for C19 (as amended): with `7 / 0` typed on binary64, choosing `+` shows the
error and leaves the operand "0" with `+` pending. -/
theorem Calculator.setOperator_divide_by_zero_witness :
    JS.Float64.ops.Lawful
      ∧ Calculator.isOperator "+" = true
      ∧ Calculator.sevenOverZero.operator = some "/"
      ∧ Calculator.sevenOverZero.shouldResetDisplay = false
      ∧ JS.Float64.ops.isNaN (JS.Float64.ops.parseFloat Calculator.sevenOverZero.previousValue)
        = false
      ∧ JS.Float64.ops.isNaN (JS.Float64.ops.parseFloat Calculator.sevenOverZero.currentValue)
        = false
      ∧ JS.Float64.ops.isZero (JS.Float64.ops.parseFloat Calculator.sevenOverZero.currentValue)
        = true
      ∧ (Calculator.setOperator JS.Float64.ops Calculator.sevenOverZero "+").displayText
        = "Cannot divide by zero"
      ∧ (Calculator.setOperator JS.Float64.ops Calculator.sevenOverZero "+").previousValue = "0"
      ∧ (Calculator.setOperator JS.Float64.ops Calculator.sevenOverZero "+").operator = some "+"
      ∧ (Calculator.setOperator JS.Float64.ops Calculator.sevenOverZero "+").shouldResetDisplay
        = true :=
  ⟨JS.Float64.ops_lawful, by decide, rfl, rfl, by decide, by decide, by decide,
    (Calculator.setOperator_divide_by_zero JS.Float64.ops JS.Float64.ops_lawful
      Calculator.sevenOverZero "+" (by decide) rfl rfl (by decide) (by decide) (by decide)).1,
    (Calculator.setOperator_divide_by_zero JS.Float64.ops JS.Float64.ops_lawful
      Calculator.sevenOverZero "+" (by decide) rfl rfl (by decide) (by decide)
      (by decide)).2.2.2.1,
    (Calculator.setOperator_divide_by_zero JS.Float64.ops JS.Float64.ops_lawful
      Calculator.sevenOverZero "+" (by decide) rfl rfl (by decide) (by decide)
      (by decide)).2.2.2.2.1,
    (Calculator.setOperator_divide_by_zero JS.Float64.ops JS.Float64.ops_lawful
      Calculator.sevenOverZero "+" (by decide) rfl rfl (by decide) (by decide)
      (by decide)).2.2.2.2.2.1⟩

/-- C19 (as stated) fails: with `/` pending on the operand "NaN" and the completed entry "0"
(which parses to zero), `setOperator('+')` overwrites the pending operation but signals no
error: the display keeps "0" without the error class and no `clear` is scheduled. -/
theorem Calculator.setOperator_divide_by_zero_counterexample :
    Calculator.nanOverZero.operator = some "/"
      ∧ Calculator.nanOverZero.shouldResetDisplay = false
      ∧ JS.Float64.isNaN (JS.Float64.parseFloat Calculator.nanOverZero.currentValue) = false
      ∧ JS.Float64.isZero (JS.Float64.parseFloat Calculator.nanOverZero.currentValue) = true
      ∧ (Calculator.setOperator JS.Float64.ops Calculator.nanOverZero "+").displayText = "0"
      ∧ (Calculator.setOperator JS.Float64.ops Calculator.nanOverZero "+").displayText
        ≠ "Cannot divide by zero"
      ∧ (Calculator.setOperator JS.Float64.ops Calculator.nanOverZero "+").displayError = false
      ∧ (Calculator.setOperator JS.Float64.ops Calculator.nanOverZero "+").timers = 0
      ∧ (Calculator.setOperator JS.Float64.ops Calculator.nanOverZero "+").previousValue = "0"
      ∧ (Calculator.setOperator JS.Float64.ops Calculator.nanOverZero "+").operator
        = some "+" := by
  decide

/-! ### Gallery: opening an item, filtering with the lightbox open -/

theorem Gallery.updateLightboxImage_lightboxActive (g : Gallery) :
    (Gallery.updateLightboxImage g).1.lightboxActive = g.lightboxActive := by
  unfold Gallery.updateLightboxImage
  split <;> rfl

theorem Gallery.openLightbox_of_item (g : Gallery) (i : Nat) (item : GalleryItem)
    (h : g.filteredItems.get? i = some item) :
    Gallery.openLightbox g (i : Int)
      = ({ g with
            currentIndex := (i : Int)
            imgOpacity := "0"
            pendingSwaps := g.pendingSwaps ++ [item]
            lightboxActive := true
            bodyOverflow := "hidden" }, Completion.normal) := by
  have hu : Gallery.updateLightboxImage { g with currentIndex := (i : Int) }
      = ({ g with
            currentIndex := (i : Int)
            imgOpacity := "0"
            pendingSwaps := g.pendingSwaps ++ [item] }, Completion.normal) := by
    have hc : Gallery.currentItem { g with currentIndex := (i : Int) } = some item := by
      unfold Gallery.currentItem
      rw [if_neg (by show ¬ (i : Int) < 0; omega)]
      show g.filteredItems.get? (i : Int).toNat = some item
      rw [Int.toNat_ofNat]
      exact h
    unfold Gallery.updateLightboxImage
    rw [hc]
  unfold Gallery.openLightbox
  rw [hu]

/-- C12: a click on an item that is not in `filteredItems` (in particular when that list is
empty) changes nothing; a click on an item of `filteredItems` sets `currentIndex` to the
position of the item in `filteredItems`, opens the lightbox and renders without error. -/
theorem Gallery.itemClick_spec (g : Gallery) (item : GalleryItem) :
    (item ∉ g.filteredItems → Gallery.itemClick g item = (g, Completion.normal))
      ∧ (g.filteredItems = [] → Gallery.itemClick g item = (g, Completion.normal))
      ∧ (item ∈ g.filteredItems →
        (Gallery.itemClick g item).1.currentIndex = (g.filteredItems.indexOf item : Int)
          ∧ g.filteredItems.get? (g.filteredItems.indexOf item) = some item
          ∧ (Gallery.itemClick g item).1.lightboxActive = true
          ∧ (Gallery.itemClick g item).2 = Completion.normal
          ∧ (Gallery.itemClick g item).1.filteredItems = g.filteredItems) := by
  have habsent : item ∉ g.filteredItems → Gallery.itemClick g item = (g, Completion.normal) := by
    intro h
    simp [Gallery.itemClick, Gallery.indexOf, h]
  refine ⟨habsent, fun h => habsent (by rw [h]; exact List.not_mem_nil _), fun h => ?_⟩
  have hget := List.indexOf_get? h
  have hidx : Gallery.indexOf g.filteredItems item = (g.filteredItems.indexOf item : Int) := by
    simp [Gallery.indexOf, h]
  have hne : Gallery.indexOf g.filteredItems item ≠ -1 := by
    rw [hidx]
    omega
  have hclick : Gallery.itemClick g item
      = Gallery.openLightbox g (g.filteredItems.indexOf item : Int) := by
    unfold Gallery.itemClick
    rw [if_pos hne, hidx]
  rw [hclick, Gallery.openLightbox_of_item g _ item hget]
  exact ⟨rfl, hget, rfl, rfl, rfl⟩

/-- Witness for C12: with the filter "nature" on three items tagged nature, city, nature, a
click on the third item opens the lightbox at position 1 (its position among all items is
2), and a click on the hidden second item does nothing. -/
theorem Gallery.itemClick_spec_witness :
    ((⟨2, some "nature", "c.jpg", "C"⟩ : GalleryItem)
        ∈ (Gallery.filterClick Gallery.threeItems (some "nature")).filteredItems
      ∧ (Gallery.itemClick (Gallery.filterClick Gallery.threeItems (some "nature"))
          ⟨2, some "nature", "c.jpg", "C"⟩).1.currentIndex = 1
      ∧ (Gallery.itemClick (Gallery.filterClick Gallery.threeItems (some "nature"))
          ⟨2, some "nature", "c.jpg", "C"⟩).1.lightboxActive = true
      ∧ Gallery.threeItems.galleryItems.indexOf (⟨2, some "nature", "c.jpg", "C"⟩ : GalleryItem)
        = 2)
    ∧ ((⟨1, some "city", "b.jpg", "B"⟩ : GalleryItem)
        ∉ (Gallery.filterClick Gallery.threeItems (some "nature")).filteredItems
      ∧ Gallery.itemClick (Gallery.filterClick Gallery.threeItems (some "nature"))
          ⟨1, some "city", "b.jpg", "B"⟩
        = (Gallery.filterClick Gallery.threeItems (some "nature"), Completion.normal)) :=
  ⟨⟨by decide,
      (((Gallery.itemClick_spec (Gallery.filterClick Gallery.threeItems (some "nature"))
        ⟨2, some "nature", "c.jpg", "C"⟩).2.2 (by decide)).1).trans (by decide),
      ((Gallery.itemClick_spec (Gallery.filterClick Gallery.threeItems (some "nature"))
        ⟨2, some "nature", "c.jpg", "C"⟩).2.2 (by decide)).2.2.1,
      by decide⟩,
    ⟨by decide,
      (Gallery.itemClick_spec (Gallery.filterClick Gallery.threeItems (some "nature"))
        ⟨1, some "city", "b.jpg", "B"⟩).1 (by decide)⟩⟩

/-- C17: a filter click leaves `currentIndex` and the `active` class of the lightbox as they
were; with three items tagged nature, city, nature, the third open in the lightbox, the
filter "city" leaves the lightbox open with the cursor at 2 over a single visible item. -/
theorem Gallery.filterClick_keeps_cursor (g : Gallery) (tag : Option String) :
    (Gallery.filterClick g tag).currentIndex = g.currentIndex
      ∧ (Gallery.filterClick g tag).lightboxActive = g.lightboxActive
      ∧ Gallery.staleCursor.lightboxActive = true
      ∧ Gallery.staleCursor.currentIndex = 2
      ∧ Gallery.staleCursor.filteredItems.length = 1 :=
  ⟨rfl, rfl, by decide, by decide, by decide⟩

/-! ### Gallery: navigation from a stale cursor, and the cursor invariant -/

theorem Gallery.navigateLightbox_next_eq (g : Gallery) :
    Gallery.navigateLightbox g "next" = Gallery.updateLightboxImage
      { g with
        currentIndex := if g.currentIndex + 1 ≥ (g.filteredItems.length : Int) then 0
          else g.currentIndex + 1 } := by
  simp only [Gallery.navigateLightbox, if_true]

theorem Gallery.navigateLightbox_prev_eq (g : Gallery) (direction : String)
    (h : direction ≠ "next") :
    Gallery.navigateLightbox g direction = Gallery.updateLightboxImage
      { g with
        currentIndex := if g.currentIndex - 1 < 0 then (g.filteredItems.length : Int) - 1
          else g.currentIndex - 1 } := by
  simp only [Gallery.navigateLightbox, h, if_false]

/-- From a cursor inside the visible list, `navigateLightbox` in either direction gives a
cursor inside the list and touches neither the list nor the `active` class. -/
theorem Gallery.navigateLightbox_inRange (g : Gallery) (direction : String)
    (h0 : 0 ≤ g.currentIndex) (h1 : g.currentIndex < g.filteredItems.length) :
    0 ≤ (Gallery.navigateLightbox g direction).1.currentIndex
      ∧ (Gallery.navigateLightbox g direction).1.currentIndex
        < (Gallery.navigateLightbox g direction).1.filteredItems.length
      ∧ (Gallery.navigateLightbox g direction).1.lightboxActive = g.lightboxActive := by
  by_cases hd : direction = "next"
  · subst hd
    rw [Gallery.navigateLightbox_next_eq, (Gallery.updateLightboxImage_currentIndex _).1,
      (Gallery.updateLightboxImage_currentIndex _).2, Gallery.updateLightboxImage_lightboxActive]
    refine ⟨?_, ?_, rfl⟩
    · show 0 ≤ (if g.currentIndex + 1 ≥ (g.filteredItems.length : Int) then 0
        else g.currentIndex + 1)
      split_ifs <;> omega
    · show (if g.currentIndex + 1 ≥ (g.filteredItems.length : Int) then 0
        else g.currentIndex + 1) < (g.filteredItems.length : Int)
      split_ifs <;> omega
  · rw [Gallery.navigateLightbox_prev_eq g direction hd,
      (Gallery.updateLightboxImage_currentIndex _).1,
      (Gallery.updateLightboxImage_currentIndex _).2, Gallery.updateLightboxImage_lightboxActive]
    refine ⟨?_, ?_, rfl⟩
    · show 0 ≤ (if g.currentIndex - 1 < 0 then (g.filteredItems.length : Int) - 1
        else g.currentIndex - 1)
      split_ifs <;> omega
    · show (if g.currentIndex - 1 < 0 then (g.filteredItems.length : Int) - 1
        else g.currentIndex - 1) < (g.filteredItems.length : Int)
      split_ifs <;> omega

/-- C20: over a non-empty visible list of length `n`, `navigateLightbox('next')` from any
cursor from -1 upwards (a stale one past the end included) gives a cursor in `[0, n)` and
renders without error; `navigateLightbox('prev')` from a cursor above `n` gives a cursor that
is still at least `n` (and the render throws), as happens from cursor 2 over one item. -/
theorem Gallery.navigateLightbox_stale (g : Gallery) (hne : g.filteredItems ≠ [])
    (hc : -1 ≤ g.currentIndex) :
    0 ≤ (Gallery.navigateLightbox g "next").1.currentIndex
      ∧ (Gallery.navigateLightbox g "next").1.currentIndex < g.filteredItems.length
      ∧ (Gallery.navigateLightbox g "next").2 = Completion.normal
      ∧ ((g.filteredItems.length : Int) < g.currentIndex →
        (g.filteredItems.length : Int) ≤ (Gallery.navigateLightbox g "prev").1.currentIndex
          ∧ (Gallery.navigateLightbox g "prev").2 = Completion.typeError)
      ∧ ∃ g1 : Gallery, g1.filteredItems ≠ [] ∧ (g1.filteredItems.length : Int) < g1.currentIndex
        ∧ (g1.filteredItems.length : Int) ≤ (Gallery.navigateLightbox g1 "prev").1.currentIndex := by
  have hpos : 0 < g.filteredItems.length := List.length_pos.mpr hne
  have hn0 : 0 ≤ (if g.currentIndex + 1 ≥ (g.filteredItems.length : Int) then 0
      else g.currentIndex + 1) := by
    split_ifs <;> omega
  have hn1 : (if g.currentIndex + 1 ≥ (g.filteredItems.length : Int) then 0
      else g.currentIndex + 1) < (g.filteredItems.length : Int) := by
    split_ifs <;> omega
  refine ⟨?_, ?_, ?_, fun hs => ⟨?_, ?_⟩, ?_⟩
  · rw [Gallery.navigateLightbox_next_eq, (Gallery.updateLightboxImage_currentIndex _).1]
    exact hn0
  · rw [Gallery.navigateLightbox_next_eq, (Gallery.updateLightboxImage_currentIndex _).1]
    exact hn1
  · rw [Gallery.navigateLightbox_next_eq]
    exact Gallery.updateLightboxImage_normal _ hn0 hn1
  · rw [Gallery.navigateLightbox_prev_eq g "prev" (by decide),
      (Gallery.updateLightboxImage_currentIndex _).1]
    show (g.filteredItems.length : Int) ≤ (if g.currentIndex - 1 < 0 then
      (g.filteredItems.length : Int) - 1 else g.currentIndex - 1)
    split_ifs <;> omega
  · rw [Gallery.navigateLightbox_prev_eq g "prev" (by decide)]
    have hi : (if g.currentIndex - 1 < 0 then (g.filteredItems.length : Int) - 1
        else g.currentIndex - 1) = g.currentIndex - 1 := by
      split_ifs <;> omega
    unfold Gallery.updateLightboxImage Gallery.currentItem
    simp only [hi]
    rw [if_neg (by omega), List.get?_eq_none.mpr (by omega)]
  · exact ⟨Gallery.staleCursor, by decide, by decide, by decide⟩

/-- Witness for C20: with cursor 2 over the single visible item of `staleCursor`, next gives
cursor 0 and prev gives cursor 1, outside the list. -/
theorem Gallery.navigateLightbox_stale_witness :
    Gallery.staleCursor.filteredItems ≠ []
      ∧ -1 ≤ Gallery.staleCursor.currentIndex
      ∧ (Gallery.staleCursor.filteredItems.length : Int) < Gallery.staleCursor.currentIndex
      ∧ (Gallery.navigateLightbox Gallery.staleCursor "next").1.currentIndex = 0
      ∧ (Gallery.navigateLightbox Gallery.staleCursor "next").2 = Completion.normal
      ∧ (Gallery.staleCursor.filteredItems.length : Int)
        ≤ (Gallery.navigateLightbox Gallery.staleCursor "prev").1.currentIndex
      ∧ (Gallery.navigateLightbox Gallery.staleCursor "prev").2 = Completion.typeError :=
  ⟨by decide, by decide, by decide, by decide,
    (Gallery.navigateLightbox_stale Gallery.staleCursor (by decide) (by decide)).2.2.1,
    ((Gallery.navigateLightbox_stale Gallery.staleCursor (by decide) (by decide)).2.2.2.1
      (by decide)).1,
    ((Gallery.navigateLightbox_stale Gallery.staleCursor (by decide) (by decide)).2.2.2.1
      (by decide)).2⟩

/-- The cursor invariant: while the lightbox is open the cursor is inside the visible
list. -/
theorem Gallery.step_cursorValid (g : Gallery) (e : Gallery.Event)
    (hf : ∀ filterValue, e = Gallery.Event.filter filterValue → g.lightboxActive = false)
    (h : g.CursorValid) : (Gallery.step g e).CursorValid := by
  have hnav : ∀ (t : Gallery) (direction : String), t.CursorValid →
      (Gallery.navigateLightbox t direction).1.CursorValid := by
    intro t direction ht hact
    by_cases hta : t.lightboxActive = true
    · obtain ⟨n0, n1, -⟩ := Gallery.navigateLightbox_inRange t direction (ht hta).1 (ht hta).2
      exact ⟨n0, n1⟩
    · have hkeep : (Gallery.navigateLightbox t direction).1.lightboxActive = t.lightboxActive := by
        unfold Gallery.navigateLightbox
        split_ifs <;> exact Gallery.updateLightboxImage_lightboxActive _
      rw [hkeep] at hact
      exact absurd hact hta
  cases e with
  | filter filterValue =>
    intro hact
    have hclosed := hf filterValue rfl
    have : (Gallery.step g (Gallery.Event.filter filterValue)).lightboxActive
        = g.lightboxActive := rfl
    rw [this, hclosed] at hact
    exact Bool.noConfusion hact
  | item item =>
    show (Gallery.itemClick g item).1.CursorValid
    by_cases hm : item ∈ g.filteredItems
    · have hget := List.indexOf_get? hm
      have hlt := List.indexOf_lt_length.mpr hm
      have hclick : Gallery.itemClick g item
          = Gallery.openLightbox g (g.filteredItems.indexOf item : Int) := by
        have hidx : Gallery.indexOf g.filteredItems item
            = (g.filteredItems.indexOf item : Int) := by
          simp [Gallery.indexOf, hm]
        unfold Gallery.itemClick
        rw [if_pos (by rw [hidx]; omega), hidx]
      rw [hclick, Gallery.openLightbox_of_item g _ item hget]
      intro _
      exact ⟨by show (0 : Int) ≤ (g.filteredItems.indexOf item : Int); omega,
        by show ((g.filteredItems.indexOf item : Nat) : Int) < (g.filteredItems.length : Int)
           omega⟩
    · have : Gallery.itemClick g item = (g, Completion.normal) := by
        simp [Gallery.itemClick, Gallery.indexOf, hm]
      rw [this]
      exact h
  | close =>
    intro hact
    exact Bool.noConfusion hact
  | navigate direction => exact hnav g direction h
  | key key =>
    show (Gallery.keydown g key).1.CursorValid
    have ht : (if key = "Escape" then Gallery.closeLightbox g else g).CursorValid := by
      split_ifs
      · intro hact
        exact Bool.noConfusion hact
      · exact h
    unfold Gallery.keydown
    by_cases h1 : g.lightboxActive = false
    · rw [if_pos h1]
      exact h
    · rw [if_neg h1]
      dsimp only
      by_cases h2 : key = "ArrowRight"
      · rw [if_pos h2]
        exact hnav _ _ ht
      · rw [if_neg h2]
        by_cases h3 : key = "ArrowLeft"
        · rw [if_pos h3]
          exact hnav _ _ ht
        · rw [if_neg h3]
          exact ht
  | swap =>
    show (Gallery.swapImage g).CursorValid
    unfold Gallery.swapImage
    split
    · exact h
    · exact h

theorem Gallery.run_cursorValid (events : List Gallery.Event) :
    ∀ g : Gallery, Gallery.filtersWhileClosed g events = true → g.CursorValid →
      (Gallery.run g events).CursorValid := by
  induction events with
  | nil => exact fun g _ h => h
  | cons e rest ih =>
    intro g hf h
    have hstep : Gallery.filtersWhileClosed (Gallery.step g e) rest = true
        ∧ ∀ filterValue, e = Gallery.Event.filter filterValue → g.lightboxActive = false := by
      cases e <;> simp_all [Gallery.filtersWhileClosed]
    exact ih (Gallery.step g e) hstep.1 (Gallery.step_cursorValid g e hstep.2 h)

/-- C11 (as amended): in every state reached from the initial state by filter clicks, item
clicks, closes, navigation, key presses and image swaps in which every filter click happens
while the lightbox is closed, an open lightbox over a non-empty visible list has its cursor
inside the list. -/
theorem Gallery.cursor_in_range (galleryItems : List GalleryItem) (activeFilter : Option String)
    (imgSrc caption : String) (events : List Gallery.Event)
    (hf : Gallery.filtersWhileClosed (Gallery.init galleryItems activeFilter imgSrc caption)
      events = true)
    (hopen : (Gallery.run (Gallery.init galleryItems activeFilter imgSrc caption)
      events).lightboxActive = true)
    (_hne : (Gallery.run (Gallery.init galleryItems activeFilter imgSrc caption)
      events).filteredItems ≠ []) :
    0 ≤ (Gallery.run (Gallery.init galleryItems activeFilter imgSrc caption) events).currentIndex
      ∧ (Gallery.run (Gallery.init galleryItems activeFilter imgSrc caption) events).currentIndex
        < (Gallery.run (Gallery.init galleryItems activeFilter imgSrc caption)
          events).filteredItems.length :=
  Gallery.run_cursorValid events _ hf (fun hact => Bool.noConfusion hact) hopen

/-- Witness for C11 (as amended): filter "nature" with the lightbox closed, open the third
item, go to the previous one, close, filter "city", open the second item. -/
theorem Gallery.cursor_in_range_witness :
    Gallery.filtersWhileClosed Gallery.threeItems Gallery.browseEvents = true
      ∧ (Gallery.run Gallery.threeItems Gallery.browseEvents).lightboxActive = true
      ∧ (Gallery.run Gallery.threeItems Gallery.browseEvents).filteredItems ≠ []
      ∧ 0 ≤ (Gallery.run Gallery.threeItems Gallery.browseEvents).currentIndex
      ∧ (Gallery.run Gallery.threeItems Gallery.browseEvents).currentIndex
        < (Gallery.run Gallery.threeItems Gallery.browseEvents).filteredItems.length :=
  ⟨by decide, by decide, by decide,
    Gallery.cursor_in_range _ (some "all") "" "" Gallery.browseEvents (by decide) (by decide)
      (by decide)⟩

/-- C11 (as stated) fails: from the initial state of a page with three items tagged nature,
city, nature, a click on the third item and then on the filter "city" leave the lightbox
open over one visible item with the cursor at 2. -/
theorem Gallery.cursor_in_range_counterexample :
    Gallery.run (Gallery.init [⟨0, some "nature", "a.jpg", "A"⟩, ⟨1, some "city", "b.jpg", "B"⟩,
        ⟨2, some "nature", "c.jpg", "C"⟩] (some "all") "" "")
        [.item ⟨2, some "nature", "c.jpg", "C"⟩, .filter (some "city")] = Gallery.staleCursor
      ∧ Gallery.staleCursor.lightboxActive = true
      ∧ Gallery.staleCursor.filteredItems = [⟨1, some "city", "b.jpg", "B"⟩]
      ∧ Gallery.staleCursor.currentIndex = 2
      ∧ ¬ (0 ≤ Gallery.staleCursor.currentIndex
        ∧ Gallery.staleCursor.currentIndex
          < (Gallery.staleCursor.filteredItems.length : Int)) := by
  decide
